import Mathlib

/-!
# XCSoar: serial transport and device blackboard

A shallow embedding of `Common/Source/Port.cpp` (the first serial link),
`src/DeviceBlackboard.cpp` (the recomputation sweep of the device blackboard)
and `src/Profile/ProfileMap.cpp` (the profile map and its text file), followed
by theorems about them.

Conventions of the embedding

* a `BYTE` / `TCHAR` is a natural number (its code unit); the cast `(BYTE)x`
  is `x % 256`;
* the C++ type `fixed` is modelled by exact rational arithmetic (`ℚ`);
* a string is the list of its character codes, a `std::map` the list of its
  entries;
* a global or function-`static` variable becomes a field of the state record
  that the function transforms.
-/

namespace XCSoar

/-! ## Serial port: `Common/Source/Port.cpp` -/

/-- The first serial link.  `hPort1_valid` says `hPort1 != INVALID_HANDLE_VALUE`;
`written` lists the bytes handed to `WriteFile` on that handle, oldest first. -/
structure PortState where
  hPort1_valid : Bool
  written : List Nat
deriving DecidableEq, Repr

/-- The cast `(BYTE)c` of a character code unit. -/
def BYTE (c : Nat) : Nat := c % 256

/-- The function `Port1Write(Byte)`: nothing on an invalid handle, otherwise one byte goes to
`WriteFile`; the error code of a failed `WriteFile` is read and dropped. -/
def Port1Write (p : PortState) (Byte : Nat) : PortState :=
  if p.hPort1_valid = false then p
  else { p with written := p.written ++ [Byte] }

/-- Upper-case hexadecimal digit character of a nibble, as printed by `%X`. -/
def hexDigitUpper (d : Nat) : Nat :=
  ("0123456789ABCDEF".toList.map Char.toNat).getD d 0

/-- The call `wsprintf(tbuf, "%02X", chk)` for an `unsigned char` argument: the two
characters `tbuf[0]`, `tbuf[1]`. -/
def wsprintf_02X (chk : Nat) : Nat × Nat :=
  (hexDigitUpper (chk / 16 % 16), hexDigitUpper (chk % 16))

/-- The `for` loop of `Port1WriteNMEA`: for each character, fold it into the
`unsigned char` checksum and write it. -/
def Port1WriteNMEA_loop : List Nat → Nat × PortState → Nat × PortState
  | [], st => st
  | c :: rest, (chk, p) =>
      Port1WriteNMEA_loop rest ((chk ^^^ BYTE c) % 256, Port1Write p (BYTE c))

/-- The function `Port1WriteNMEA(Text)`; `Text` is the list of characters before the
terminating NUL (so `len = _tcslen(Text)` is its length). -/
def Port1WriteNMEA (p : PortState) (Text : List Nat) : PortState :=
  let p1 := Port1Write p (BYTE 36)
  let (chk, p2) := Port1WriteNMEA_loop Text (0, p1)
  let p3 := Port1Write p2 (BYTE 42)
  let tbuf := wsprintf_02X chk
  let p4 := Port1Write p3 (BYTE tbuf.1)
  let p5 := Port1Write p4 (BYTE tbuf.2)
  let p6 := Port1Write p5 (BYTE 13)
  Port1Write p6 (BYTE 10)

/-! ### Reading a framed sentence back (the receiver side of the checksum) -/

/-- XOR of all bytes of a list. -/
def xorAll (bs : List Nat) : Nat := bs.foldr (fun b acc => b ^^^ acc) 0

/-- Value of one hexadecimal digit character. -/
def hexValue (c : Nat) : Option Nat :=
  if 48 ≤ c ∧ c ≤ 57 then some (c - 48)
  else if 65 ≤ c ∧ c ≤ 70 then some (c - 55)
  else if 97 ≤ c ∧ c ≤ 102 then some (c - 87)
  else none

/-- Two hexadecimal digit characters read as a byte, high nibble first. -/
def parseHexByte (a b : Nat) : Option Nat :=
  match hexValue a, hexValue b with
  | some h, some l => some (16 * h + l)
  | _, _ => none

/-- From a sentence: the XOR of the bytes between the leading `$` and the first
`*`, paired with the byte spelled by the two characters after that `*`. -/
def rederiveChecksum (sentence : List Nat) : Option (Nat × Nat) :=
  match sentence with
  | [] => none
  | d :: rest =>
      if d ≠ 36 then none
      else
        match rest.dropWhile (fun b => b != 42) with
        | _ :: a :: b :: _ =>
            (parseHexByte a b).map
              (fun v => (xorAll (rest.takeWhile (fun b => b != 42)), v))
        | _ => none

/-! ### Life cycle of the link -/

/-- The globals of `Port.cpp` that opening the link touches.  `hPort1` is the
handle variable, `none` standing for `INVALID_HANDLE_VALUE`; `open_handles`
lists the handles that the operating system holds open; `reader_running` says
that a thread running `Port1ReadThread` exists. -/
structure Port1Link where
  hPort1 : Option Nat
  open_handles : List Nat
  reader_running : Bool
  Port1CloseThread : Bool
deriving DecidableEq, Repr

/-- Outcomes of the operating-system calls made while the link is opened:
the handle returned by `CreateFile` (`none` when the port cannot be opened),
whether `SetCommState`, `SetCommTimeouts` and `CreateThread` succeed, and the
read timeout reported by `GetCommTimeouts`. -/
structure Port1System where
  CreateFile : Option Nat
  SetCommState : Bool
  SetCommTimeouts : Bool
  CreateThread : Bool
  ReadTotalTimeoutConstant : Int
deriving DecidableEq, Repr

/-- The call `CloseHandle(h)` on the handle held in the variable. -/
def CloseHandle (l : Port1Link) (h : Option Nat) : Port1Link :=
  match h with
  | some v => { l with open_handles := l.open_handles.erase v }
  | none => l

/-- The function `Port1SetRxTimeout(Timeout)`: the previous timeout, or -1 on an
invalid handle or when `SetCommTimeouts` fails, in which case the handle is
closed. -/
def Port1SetRxTimeout (os : Port1System) (l : Port1Link) : Int × Port1Link :=
  if l.hPort1 = none then (-1, l)
  else
    let result := os.ReadTotalTimeoutConstant
    if !os.SetCommTimeouts then (-1, CloseHandle l l.hPort1)
    else (result, l)

/-- The function `Port1StartRxThread()`. -/
def Port1StartRxThread (os : Port1System) (l : Port1Link) : Bool × Port1Link :=
  let l := { l with Port1CloseThread := false }
  if os.CreateThread then (true, { l with reader_running := true })
  else (false, l)

/-- The function `Port1Initialize(lpszPortName, dwPortSpeed)`.  The name and the
speed act through the outcomes of `CreateFile` and `SetCommState`; the message
boxes are not part of the state. -/
def Port1Initialize (os : Port1System) (l : Port1Link) : Bool × Port1Link :=
  let l := { l with
    hPort1 := os.CreateFile
    open_handles :=
      match os.CreateFile with
      | some v => v :: l.open_handles
      | none => l.open_handles }
  if l.hPort1 = none then (false, l)
  else if !os.SetCommState then (false, CloseHandle l l.hPort1)
  else
    let l := (Port1SetRxTimeout os l).2
    let started := Port1StartRxThread os l
    if !started.1 then (false, CloseHandle started.2 started.2.hPort1)
    else (true, started.2)

/-- The port as `Port1Write` sees it after the life-cycle calls: its guard tests
the handle variable against `INVALID_HANDLE_VALUE`. -/
def Port1Link.port (l : Port1Link) (written : List Nat) : PortState :=
  { hPort1_valid := l.hPort1.isSome, written := written }

/-! ## Device blackboard: `src/DeviceBlackboard.cpp`

The types of the blackboard records live in headers that are not part of the
sources at hand; they are transcribed here as far as `DeviceBlackboard.cpp`
uses them. -/

/-- Modelled from the spec: the class `Validity` (NMEA/Validity.hpp is missing).
A freshness stamp rather than a boolean: `none` after `clear()`, `some t` after
`update(t)`. -/
structure Validity where
  last : Option ℚ
deriving DecidableEq, Repr

namespace Validity

/-- Modelled from the spec: `Validity::clear()` of the missing header. -/
def clear : Validity := ⟨none⟩

/-- Modelled from the spec: `Validity::update(now)` of the missing header. -/
def update (now : ℚ) : Validity := ⟨some now⟩

/-- Modelled from the spec: `operator bool` of the missing header, whether the
value is available. -/
def valid (v : Validity) : Bool := v.last.isSome

/-- Modelled from the spec: `Validity::modified(other)` of the missing header,
whether this stamp is newer than the other one. -/
def modified (v other : Validity) : Bool :=
  match v.last, other.last with
  | some a, some b => decide (b < a)
  | some _, none => true
  | none, _ => false

/-- Modelled from the spec: `Validity::expire(now, max_age)` of the missing
header; the value stays available while `now - stamp < max_age`. -/
def expire (v : Validity) (now max_age : ℚ) : Validity :=
  match v.last with
  | some t => if now - t < max_age then v else clear
  | none => v

end Validity

/-- An `Angle`, by its value in native units. -/
structure Angle where
  value : ℚ
deriving DecidableEq, Repr

/-- The method `Angle::native(v)`. -/
def Angle.native (v : ℚ) : Angle := ⟨v⟩

/-- The `operator-` of two angles. -/
def Angle.sub (a b : Angle) : Angle := ⟨a.value - b.value⟩

/-- A `GeoPoint`. -/
structure GeoPoint where
  Longitude : Angle
  Latitude : Angle
deriving DecidableEq, Repr

/-- A `SpeedVector` (wind): direction and magnitude. -/
structure SpeedVector where
  bearing : Angle
  norm : ℚ
deriving DecidableEq, Repr

/-- Modelled from the spec: `SpeedVector::is_non_zero()` of a missing header,
whether the vector is non-zero. -/
def SpeedVector.is_non_zero (v : SpeedVector) : Bool := decide (v.norm ≠ 0)

/-- The function `positive(x)` on `fixed`. -/
abbrev positive (x : ℚ) : Prop := 0 < x

/-- Division of `fixed` values.  The divisor comes with a proof that it is not
zero, so that every division of the embedding is visibly guarded. -/
def fixed_div (a b : ℚ) (_h : b ≠ 0) : ℚ := a / b

/-- The constant `fixed_inv_2g`, the macro `fixed(1.0/(2.0*9.81))`. -/
def fixed_inv_2g : ℚ := 1 / (2 * (981 / 100))

/-- The constant `fixed_inv_g`, the macro `fixed(1.0/9.81)`. -/
def fixed_inv_g : ℚ := 1 / (981 / 100)

/-- The constant `fixed_small`, the macro `fixed(0.001)`. -/
def fixed_small : ℚ := 1 / 1000

/-- The record `GPS_STATE`, the part used here. -/
structure GPS_STATE where
  NAVWarning : Bool
  SatellitesUsed : Nat
  Simulator : Bool
  Replay : Bool
  MovementDetected : Bool
deriving DecidableEq, Repr

/-- The record `ACCELERATION_STATE`. -/
structure ACCELERATION_STATE where
  Available : Bool
  Gload : ℚ
  BankAngle : Angle
  PitchAngle : Angle
deriving DecidableEq, Repr

/-- The record `AtmosphericPressure`, by its QNH value. -/
structure AtmosphericPressure where
  qnh : ℚ
deriving DecidableEq, Repr

/-- The record `FLARM_TRAFFIC`, the part used here: identifier and, once known, the name. -/
structure FLARM_TRAFFIC where
  ID : Nat
  Name : Option String
deriving DecidableEq, Repr

/-- The method `FLARM_TRAFFIC::HasName()`. -/
def FLARM_TRAFFIC.HasName (t : FLARM_TRAFFIC) : Bool := t.Name.isSome

/-- The record `FLARM_STATE`, the part used here. -/
structure FLARM_STATE where
  available : Bool
  traffic : List FLARM_TRAFFIC
deriving DecidableEq, Repr

/-- The record `NMEA_INFO`: the raw observation record, with the fields that
`DeviceBlackboard.cpp` reads or writes. -/
structure NMEA_INFO where
  Connected : Validity
  gps : GPS_STATE
  acceleration : ACCELERATION_STATE
  Location : GeoPoint
  TrackBearing : Angle
  GroundSpeed : ℚ
  AirspeedAvailable : Validity
  GPSAltitudeAvailable : Validity
  GPSAltitude : ℚ
  BaroAltitudeAvailable : Validity
  BaroAltitude : ℚ
  PressureAltitudeAvailable : Validity
  PressureAltitude : ℚ
  QNHAvailable : Validity
  pressure : AtmosphericPressure
  NavAltitude : ℚ
  EnergyHeight : ℚ
  TEAltitude : ℚ
  Time : ℚ
  TotalEnergyVarioAvailable : Validity
  TotalEnergyVario : ℚ
  NettoVarioAvailable : Validity
  NettoVario : ℚ
  GPSVario : ℚ
  GPSVarioTE : ℚ
  BruttoVario : ℚ
  GliderSinkRate : ℚ
  TurnRate : ℚ
  TurnRateWind : ℚ
  Heading : Angle
  ExternalWindAvailable : Validity
  ExternalWind : SpeedVector
  WindAvailable : Validity
  wind : SpeedVector
  MacCready : ℚ
  flarm : FLARM_STATE
deriving DecidableEq, Repr

/-- The record `FLYING_STATE`, the part used here. -/
structure FLYING_STATE where
  Flying : Bool
  OnGround : Bool
deriving DecidableEq, Repr

/-- The record `DERIVED_INFO`: conclusions of the glide computer, as far as they are read
here. -/
structure DERIVED_INFO where
  flight : FLYING_STATE
  AirspeedAvailable : Bool
  TrueAirspeed : ℚ
  IndicatedAirspeed : ℚ
  estimated_wind : SpeedVector
  estimated_wind_available : Validity
  TerrainValid : Bool
  TerrainAlt : ℚ
deriving DecidableEq, Repr

/-- The record `SETTINGS_COMPUTER`, the part used here. -/
structure SETTINGS_COMPUTER where
  ExternalWind : Bool
  ManualWindAvailable : Validity
  ManualWind : SpeedVector
  AutoWindMode : Int
  EnableNavBaroAltitude : Bool
deriving DecidableEq, Repr

/-- A `Waypoint`, the part used here. -/
structure Waypoint where
  airport : Bool
  Altitude : ℚ
deriving DecidableEq, Repr

/-- The method `Waypoint::is_airport()`. -/
def Waypoint.is_airport (w : Waypoint) : Bool := w.airport

/-- The record `GlidePolar`, by the one method called here. -/
structure GlidePolar where
  SinkRate : ℚ → ℚ → ℚ

/-- Timeouts of the expirable fields, constants of headers that are missing. -/
structure Timeouts where
  Airspeed : ℚ
  GPSAltitude : ℚ
  BaroAltitude : ℚ
  PressureAltitude : ℚ
  QNH : ℚ
  TotalEnergyVario : ℚ
  NettoVario : ℚ
  ExternalWind : ℚ
  Wind : ℚ
  EstimatedWind : ℚ
deriving DecidableEq, Repr

/-- Library routines that `DeviceBlackboard.cpp` calls and whose code is not at
hand: the trigonometry and unit conversions of `Angle`, the pressure formula,
the callsign database and the field timeouts. -/
structure Library where
  fastsine : Angle → ℚ
  fastcosine : Angle → ℚ
  atan2 : ℚ → ℚ → ℚ
  atan : ℚ → ℚ
  cos : ℚ → ℚ
  Angle_radians : ℚ → Angle
  Angle_degrees : ℚ → Angle
  value_radians : Angle → ℚ
  value_degrees : Angle → ℚ
  as_bearing : Angle → Angle
  as_delta : Angle → Angle
  FindQNHFromPressureAltitude : AtmosphericPressure → ℚ → ℚ → ℚ
  LookupCallsign : Nat → Option String
  timeouts : Timeouts

/-- The constant `QNH_TIME`. -/
def QNH_TIME : Nat := 10

/-- The constant `UINT_MAX` of a 32-bit `unsigned`. -/
def UINT_MAX : Nat := 4294967295

/-- The device blackboard together with the globals its methods touch:
`countdown_autoqnh` is the function-static counter of `AutoQNH()`,
`interface_settings_computer` the record behind
`XCSoarInterface::SetSettingsComputer()`, `way_points` the global waypoint
database through its `lookup_location(location, range)`, and `devices_qnh` the
QNH values passed to `AllDevicesPutQNH`, oldest first. -/
structure DeviceBlackboard where
  gps_info : NMEA_INFO
  state_last : NMEA_INFO
  calculated_info : DERIVED_INFO
  settings_computer : SETTINGS_COMPUTER
  countdown_autoqnh : Nat
  interface_settings_computer : SETTINGS_COMPUTER
  way_points : GeoPoint → ℚ → Option Waypoint
  devices_qnh : List ℚ

/-- Modelled from the spec: `NMEA_INFO::expire()` (its source file is missing).
Every freshness stamp older than its timeout is cleared; the clock is the
record's own `Time`. -/
def NMEA_INFO.expire (T : Timeouts) (b : NMEA_INFO) : NMEA_INFO :=
  { b with
    AirspeedAvailable := b.AirspeedAvailable.expire b.Time T.Airspeed
    GPSAltitudeAvailable := b.GPSAltitudeAvailable.expire b.Time T.GPSAltitude
    BaroAltitudeAvailable := b.BaroAltitudeAvailable.expire b.Time T.BaroAltitude
    PressureAltitudeAvailable :=
      b.PressureAltitudeAvailable.expire b.Time T.PressureAltitude
    QNHAvailable := b.QNHAvailable.expire b.Time T.QNH
    TotalEnergyVarioAvailable :=
      b.TotalEnergyVarioAvailable.expire b.Time T.TotalEnergyVario
    NettoVarioAvailable := b.NettoVarioAvailable.expire b.Time T.NettoVario
    ExternalWindAvailable := b.ExternalWindAvailable.expire b.Time T.ExternalWind
    WindAvailable := b.WindAvailable.expire b.Time T.Wind }

/-- Modelled from the spec: `DERIVED_INFO::expire(Time)` (its source file is
missing); the estimated wind is the one stamped field read here. -/
def DERIVED_INFO.expire (T : Timeouts) (Time : ℚ) (c : DERIVED_INFO) : DERIVED_INFO :=
  { c with
    estimated_wind_available := c.estimated_wind_available.expire Time T.EstimatedWind }

/-- Modelled from the spec: `NMEA_INFO::ProvideQNHSetting(value)` (declared in a
missing header): stores the QNH and marks it available. -/
def NMEA_INFO.ProvideQNHSetting (b : NMEA_INFO) (value : ℚ) : NMEA_INFO :=
  { b with pressure := { qnh := value }, QNHAvailable := Validity.update b.Time }

/-- The method `DeviceBlackboard::FLARM_ScanTraffic()`. -/
def FLARM_ScanTraffic (L : Library) (bb : DeviceBlackboard) : DeviceBlackboard :=
  let flarm := bb.gps_info.flarm
  if !flarm.available then bb
  else
    let traffic := flarm.traffic.map (fun t =>
      if !t.HasName then
        match L.LookupCallsign t.ID with
        | some fname => { t with Name := some fname }
        | none => t
      else t)
    { bb with gps_info := { bb.gps_info with flarm := { flarm with traffic := traffic } } }

/-- The method `DeviceBlackboard::SetSystemTime()`: it may set the clock of the operating
system and changes nothing on the blackboard. -/
def SetSystemTime (bb : DeviceBlackboard) : DeviceBlackboard := bb

/-- The method `DeviceBlackboard::Wind()`. -/
def Wind (bb : DeviceBlackboard) : DeviceBlackboard :=
  let basic := bb.gps_info
  let settings := bb.settings_computer
  if basic.ExternalWindAvailable.valid && settings.ExternalWind then
    { bb with gps_info :=
        { basic with wind := basic.ExternalWind
                     WindAvailable := basic.ExternalWindAvailable } }
  else if settings.ManualWindAvailable.valid && settings.AutoWindMode == 0 then
    { bb with gps_info :=
        { basic with wind := settings.ManualWind
                     WindAvailable := Validity.update basic.Time } }
  else if bb.calculated_info.estimated_wind_available.modified settings.ManualWindAvailable
            && settings.AutoWindMode != 0 then
    { bb with
      gps_info :=
        { basic with wind := bb.calculated_info.estimated_wind
                     WindAvailable := bb.calculated_info.estimated_wind_available }
      interface_settings_computer :=
        { bb.interface_settings_computer with ManualWindAvailable := Validity.clear } }
  else if settings.ManualWindAvailable.valid && settings.AutoWindMode != 0 then
    { bb with gps_info :=
        { basic with wind := settings.ManualWind
                     WindAvailable := settings.ManualWindAvailable } }
  else
    { bb with gps_info := { basic with WindAvailable := Validity.clear } }

/-- The source a wind vector can be taken from. -/
inductive WindSource where
  | external
  | manual
  | estimated
  | none
deriving DecidableEq, Repr

/-- The branch `Wind()` takes, read off the same chain of conditions. -/
def Wind_source (bb : DeviceBlackboard) : WindSource :=
  let basic := bb.gps_info
  let settings := bb.settings_computer
  if basic.ExternalWindAvailable.valid && settings.ExternalWind then .external
  else if settings.ManualWindAvailable.valid && settings.AutoWindMode == 0 then .manual
  else if bb.calculated_info.estimated_wind_available.modified settings.ManualWindAvailable
            && settings.AutoWindMode != 0 then .estimated
  else if settings.ManualWindAvailable.valid && settings.AutoWindMode != 0 then .manual
  else .none

/-- The method `DeviceBlackboard::Heading()`. -/
def Heading (L : Library) (bb : DeviceBlackboard) : DeviceBlackboard :=
  let basic := bb.gps_info
  let wind := basic.wind
  if (decide (positive basic.GroundSpeed) || wind.is_non_zero)
      && bb.calculated_info.flight.Flying then
    let x0 := L.fastsine basic.TrackBearing * basic.GroundSpeed
    let y0 := L.fastcosine basic.TrackBearing * basic.GroundSpeed
    let x0 := x0 + L.fastsine wind.bearing * wind.norm
    let y0 := y0 + L.fastcosine wind.bearing * wind.norm
    { bb with gps_info :=
        { basic with Heading := L.as_bearing (L.Angle_radians (L.atan2 x0 y0)) } }
  else
    { bb with gps_info := { basic with Heading := basic.TrackBearing } }

/-- The method `DeviceBlackboard::NavAltitude()`. -/
def NavAltitude (bb : DeviceBlackboard) : DeviceBlackboard :=
  let basic := bb.gps_info
  if !bb.settings_computer.EnableNavBaroAltitude || !basic.BaroAltitudeAvailable.valid then
    { bb with gps_info := { basic with NavAltitude := basic.GPSAltitude } }
  else
    { bb with gps_info := { basic with NavAltitude := basic.BaroAltitude } }

/-- The altitude `AutoQNH()` calibrates against once the countdown is used up:
the altitude of the waypoint that `lookup_location` finds within 1000 m when
that is an airport, else the terrain altitude when it is valid, else none
(the branch that returns). -/
def AutoQNH_reference (bb : DeviceBlackboard) : Option ℚ :=
  match bb.way_points bb.gps_info.Location 1000 with
  | some next_wp =>
      if next_wp.is_airport then some next_wp.Altitude
      else if bb.calculated_info.TerrainValid then some bb.calculated_info.TerrainAlt
      else none
  | none =>
      if bb.calculated_info.TerrainValid then some bb.calculated_info.TerrainAlt
      else none

/-- The method `DeviceBlackboard::AutoQNH()`.  The decrement is the one of a 32-bit
`unsigned`. -/
def AutoQNH (L : Library) (bb : DeviceBlackboard) : DeviceBlackboard :=
  let basic := bb.gps_info
  if !bb.calculated_info.flight.OnGround
      || bb.countdown_autoqnh == 0
      || basic.gps.Replay
      || basic.gps.Simulator
      || basic.gps.NAVWarning
      || !basic.PressureAltitudeAvailable.valid
      || basic.QNHAvailable.valid then
    if bb.countdown_autoqnh ≤ QNH_TIME then
      { bb with countdown_autoqnh := QNH_TIME }
    else bb
  else
    let countdown :=
      if bb.countdown_autoqnh ≤ QNH_TIME then
        (bb.countdown_autoqnh + UINT_MAX) % (UINT_MAX + 1)
      else bb.countdown_autoqnh
    let bb := { bb with countdown_autoqnh := countdown }
    if countdown == 0 then
      match AutoQNH_reference bb with
      | some alt =>
          let basic := basic.ProvideQNHSetting
            (L.FindQNHFromPressureAltitude basic.pressure basic.PressureAltitude alt)
          { bb with gps_info := basic
                    devices_qnh := bb.devices_qnh ++ [basic.pressure.qnh]
                    countdown_autoqnh := UINT_MAX }
      | none => bb
    else bb

/-- The method `DeviceBlackboard::EnergyHeight()`. -/
def EnergyHeight (bb : DeviceBlackboard) : DeviceBlackboard :=
  let basic := bb.gps_info
  let basic :=
    if bb.calculated_info.AirspeedAvailable then
      { basic with EnergyHeight :=
          bb.calculated_info.TrueAirspeed * bb.calculated_info.TrueAirspeed * fixed_inv_2g }
    else
      { basic with EnergyHeight := 0 }
  { bb with gps_info := { basic with TEAltitude := basic.NavAltitude + basic.EnergyHeight } }

/-- The method `DeviceBlackboard::Vario()`. -/
def Vario (bb : DeviceBlackboard) : DeviceBlackboard :=
  let basic := bb.gps_info
  let dT := basic.Time - bb.state_last.Time
  let basic :=
    if h : positive dT then
      let Gain := basic.NavAltitude - bb.state_last.NavAltitude
      let GainTE := basic.TEAltitude - bb.state_last.TEAltitude
      { basic with GPSVario := fixed_div Gain dT (ne_of_gt h)
                   GPSVarioTE := fixed_div GainTE dT (ne_of_gt h) }
    else basic
  { bb with gps_info :=
      { basic with BruttoVario :=
          if basic.TotalEnergyVarioAvailable.valid then basic.TotalEnergyVario
          else basic.GPSVario } }

/-- The method `DeviceBlackboard::NettoVario(glide_polar)`. -/
def NettoVario (glide_polar : GlidePolar) (bb : DeviceBlackboard) : DeviceBlackboard :=
  let basic := bb.gps_info
  let basic :=
    { basic with GliderSinkRate :=
        if bb.calculated_info.flight.Flying && bb.calculated_info.AirspeedAvailable then
          - glide_polar.SinkRate bb.calculated_info.IndicatedAirspeed basic.acceleration.Gload
        else 0 }
  if !basic.NettoVarioAvailable.valid then
    { bb with gps_info :=
        { basic with NettoVario := basic.BruttoVario - basic.GliderSinkRate } }
  else
    { bb with gps_info := basic }

/-- The method `DeviceBlackboard::tick_fast(glide_polar)`. -/
def tick_fast (glide_polar : GlidePolar) (bb : DeviceBlackboard) : DeviceBlackboard :=
  NettoVario glide_polar (Vario (EnergyHeight bb))

/-- The method `DeviceBlackboard::TurnRate()`. -/
def TurnRate (L : Library) (bb : DeviceBlackboard) : DeviceBlackboard :=
  let basic := bb.gps_info
  let dT := basic.Time - bb.state_last.Time
  if !bb.calculated_info.flight.Flying then
    { bb with gps_info := { basic with TurnRate := 0 } }
  else if h : ¬ positive dT then bb
  else
    let delta := L.as_delta (basic.TrackBearing.sub bb.state_last.TrackBearing)
    { bb with gps_info :=
        { basic with TurnRate :=
            fixed_div (L.value_degrees delta) dT (ne_of_gt (not_not.mp h)) } }

/-- The method `DeviceBlackboard::Dynamics()`. -/
def Dynamics (L : Library) (bb : DeviceBlackboard) : DeviceBlackboard :=
  let basic := bb.gps_info
  let calculated := bb.calculated_info
  if calculated.flight.Flying && (decide (positive basic.GroundSpeed) || basic.wind.is_non_zero) then
    let dT := basic.Time - bb.state_last.Time
    let basic :=
      if h : positive dT then
        let delta := L.as_delta (basic.Heading.sub bb.state_last.Heading)
        { basic with TurnRateWind := fixed_div (L.value_degrees delta) dT (ne_of_gt h) }
      else basic
    let basic :=
      if calculated.AirspeedAvailable then
        let angle := L.atan (L.value_radians
          (L.Angle_degrees (basic.TurnRateWind * calculated.TrueAirspeed * fixed_inv_g)))
        let acc := { basic.acceleration with BankAngle := L.Angle_radians angle }
        let acc :=
          if !acc.Available then
            let c := max fixed_small |L.cos angle|
            have hc : c ≠ 0 :=
              ne_of_gt (lt_of_lt_of_le (by norm_num [fixed_small]) (le_max_left _ _))
            { acc with Gload := fixed_div 1 c hc }
          else acc
        { basic with acceleration := acc }
      else
        let acc := { basic.acceleration with BankAngle := Angle.native 0 }
        let acc := if !acc.Available then { acc with Gload := 1 } else acc
        { basic with acceleration := acc }
    let basic :=
      if calculated.AirspeedAvailable && basic.TotalEnergyVarioAvailable.valid then
        let pitch := L.atan2 (basic.GPSVario - basic.TotalEnergyVario) calculated.TrueAirspeed
        { basic with acceleration :=
            { basic.acceleration with PitchAngle := L.Angle_radians pitch } }
      else
        { basic with acceleration :=
            { basic.acceleration with PitchAngle := Angle.native 0 } }
    { bb with gps_info := basic }
  else
    let acc := { basic.acceleration with BankAngle := Angle.native 0
                                         PitchAngle := Angle.native 0 }
    let acc := if !acc.Available then { acc with Gload := 1 } else acc
    { bb with gps_info := { basic with acceleration := acc, TurnRateWind := 0 } }

/-- The method `DeviceBlackboard::tick(glide_polar)`. -/
def tick (L : Library) (glide_polar : GlidePolar) (bb : DeviceBlackboard) : DeviceBlackboard :=
  let bb := { bb with gps_info := bb.gps_info.expire L.timeouts }
  let bb := { bb with calculated_info :=
                bb.calculated_info.expire L.timeouts bb.gps_info.Time }
  let bb := FLARM_ScanTraffic L bb
  let bb := SetSystemTime bb
  let bb := Wind bb
  let bb := Heading L bb
  let bb := NavAltitude bb
  let bb := AutoQNH L bb
  let bb := tick_fast glide_polar bb
  let bb := TurnRate L bb
  if bb.gps_info.Time ≠ bb.state_last.Time then
    let bb := if bb.gps_info.Time > bb.state_last.Time then Dynamics L bb else bb
    { bb with state_last := bb.gps_info }
  else bb

/-- The stages of `tick()` up to and including `TurnRate()`. -/
def tick_before_commit (L : Library) (glide_polar : GlidePolar) (bb : DeviceBlackboard) :
    DeviceBlackboard :=
  let bb := { bb with gps_info := bb.gps_info.expire L.timeouts }
  let bb := { bb with calculated_info :=
                bb.calculated_info.expire L.timeouts bb.gps_info.Time }
  let bb := FLARM_ScanTraffic L bb
  let bb := SetSystemTime bb
  let bb := Wind bb
  let bb := Heading L bb
  let bb := NavAltitude bb
  let bb := AutoQNH L bb
  let bb := tick_fast glide_polar bb
  TurnRate L bb

/-- The end of `tick()`: `Dynamics()` and the update of the history sample. -/
def tick_commit (L : Library) (bb : DeviceBlackboard) : DeviceBlackboard :=
  if bb.gps_info.Time ≠ bb.state_last.Time then
    let bb := if bb.gps_info.Time > bb.state_last.Time then Dynamics L bb else bb
    { bb with state_last := bb.gps_info }
  else bb

/-- Modelled from the spec: `NMEA_INFO::reset()`, whose source is missing; it
clears the record to defaults, all values zero and all stamps cleared. -/
def NMEA_INFO.reset (_b : NMEA_INFO) : NMEA_INFO :=
  { Connected := Validity.clear
    gps := { NAVWarning := false, SatellitesUsed := 0, Simulator := false,
             Replay := false, MovementDetected := false }
    acceleration := { Available := false, Gload := 0, BankAngle := ⟨0⟩, PitchAngle := ⟨0⟩ }
    Location := { Longitude := ⟨0⟩, Latitude := ⟨0⟩ }
    TrackBearing := ⟨0⟩
    GroundSpeed := 0
    AirspeedAvailable := Validity.clear
    GPSAltitudeAvailable := Validity.clear
    GPSAltitude := 0
    BaroAltitudeAvailable := Validity.clear
    BaroAltitude := 0
    PressureAltitudeAvailable := Validity.clear
    PressureAltitude := 0
    QNHAvailable := Validity.clear
    pressure := { qnh := 0 }
    NavAltitude := 0
    EnergyHeight := 0
    TEAltitude := 0
    Time := 0
    TotalEnergyVarioAvailable := Validity.clear
    TotalEnergyVario := 0
    NettoVarioAvailable := Validity.clear
    NettoVario := 0
    GPSVario := 0
    GPSVarioTE := 0
    BruttoVario := 0
    GliderSinkRate := 0
    TurnRate := 0
    TurnRateWind := 0
    Heading := ⟨0⟩
    ExternalWindAvailable := Validity.clear
    ExternalWind := { bearing := ⟨0⟩, norm := 0 }
    WindAvailable := Validity.clear
    wind := { bearing := ⟨0⟩, norm := 0 }
    MacCready := 0
    flarm := { available := false, traffic := [] } }

/-- Modelled from the spec: `DERIVED_INFO::reset()`, whose source is missing; it
clears the record to defaults. -/
def DERIVED_INFO.reset (_c : DERIVED_INFO) : DERIVED_INFO :=
  { flight := { Flying := false, OnGround := false }
    AirspeedAvailable := false
    TrueAirspeed := 0
    IndicatedAirspeed := 0
    estimated_wind := { bearing := ⟨0⟩, norm := 0 }
    estimated_wind_available := Validity.clear
    TerrainValid := false
    TerrainAlt := 0 }

/-- The method `DeviceBlackboard::Initialise()`; `hour`, `minute` and `second`
are those of `BrokenDateTime::NowUTC()`.  The broken-down `DateTime` is not
among the fields kept here. -/
def Initialise (hour minute second : Nat) (bb : DeviceBlackboard) : DeviceBlackboard :=
  let gps_info := bb.gps_info.reset
  let calculated_info := bb.calculated_info.reset
  { bb with
    gps_info := { gps_info with Time := ((hour * 3600 + minute * 60 + second : Nat) : ℚ) }
    calculated_info := calculated_info }

/-- The method `DeviceBlackboard::ReadBlackboard(derived_info)`. -/
def ReadBlackboard (derived_info : DERIVED_INFO) (bb : DeviceBlackboard) : DeviceBlackboard :=
  { bb with calculated_info := derived_info }

/-- The method `DeviceBlackboard::ReadSettingsComputer(settings)`. -/
def ReadSettingsComputer (settings : SETTINGS_COMPUTER) (bb : DeviceBlackboard) :
    DeviceBlackboard :=
  { bb with settings_computer := settings }

/-- Modelled from the spec: `NMEA_INFO::ProvidePressureAltitude(origin, value)`,
declared in a missing header: stores the pressure altitude and marks it
available. -/
def NMEA_INFO.ProvidePressureAltitude (b : NMEA_INFO) (value : ℚ) : NMEA_INFO :=
  { b with PressureAltitude := value, PressureAltitudeAvailable := Validity.update b.Time }

/-- The method `DeviceBlackboard::SetLocation(loc, speed, bearing, alt, baroalt,
t)`; `clock_ms` is the value of `MonotonicClockMS()`.  `TriggerGPSUpdate()`
signals an event and leaves the blackboard alone. -/
def SetLocation (clock_ms : ℚ) (loc : GeoPoint) (speed : ℚ) (bearing : Angle)
    (alt baroalt t : ℚ) (bb : DeviceBlackboard) : DeviceBlackboard :=
  let basic := bb.gps_info
  let basic := { basic with Connected := Validity.update (clock_ms / 1000) }
  let basic := { basic with gps := { basic.gps with NAVWarning := false } }
  let basic := { basic with gps := { basic.gps with SatellitesUsed := 6 } }
  let basic := { basic with acceleration := { basic.acceleration with Available := false } }
  let basic := { basic with Location := loc }
  let basic := { basic with GroundSpeed := speed }
  let basic := { basic with AirspeedAvailable := Validity.clear }
  let basic := { basic with TrackBearing := bearing }
  let basic := { basic with GPSAltitude := alt }
  let basic := { basic with GPSAltitudeAvailable := Validity.update t }
  let basic := basic.ProvidePressureAltitude baroalt
  let basic := { basic with Time := t }
  let basic := { basic with TotalEnergyVarioAvailable := Validity.clear }
  let basic := { basic with NettoVarioAvailable := Validity.clear }
  let basic := { basic with ExternalWindAvailable := Validity.clear }
  let basic := { basic with WindAvailable := Validity.clear }
  let basic := { basic with gps := { basic.gps with Replay := true } }
  { bb with gps_info := basic }

/-! ### The four inputs of the wind selection -/

/-- Whether the external wind is available. -/
def external_wind_available (bb : DeviceBlackboard) : Bool :=
  bb.gps_info.ExternalWindAvailable.valid

/-- Whether the manual wind is available. -/
def manual_wind_available (bb : DeviceBlackboard) : Bool :=
  bb.settings_computer.ManualWindAvailable.valid

/-- Whether the auto-wind mode is enabled (non-zero). -/
def auto_wind_enabled (bb : DeviceBlackboard) : Bool :=
  bb.settings_computer.AutoWindMode != 0

/-- Whether the estimated wind is newer than the manual wind. -/
def estimated_wind_newer (bb : DeviceBlackboard) : Bool :=
  bb.calculated_info.estimated_wind_available.modified
    bb.settings_computer.ManualWindAvailable

/-! ### Runs of `AutoQNH()` -/

/-- The gating conditions of `AutoQNH()` on its inputs: on ground, not replay,
not simulator, valid fix, pressure altitude available, QNH not yet known. -/
def AutoQNH_gate (bb : DeviceBlackboard) : Bool :=
  bb.calculated_info.flight.OnGround
    && !bb.gps_info.gps.Replay
    && !bb.gps_info.gps.Simulator
    && !bb.gps_info.gps.NAVWarning
    && bb.gps_info.PressureAltitudeAvailable.valid
    && !bb.gps_info.QNHAvailable.valid

/-- Whether this call of `AutoQNH()` performs the calibration, seen by its
broadcast to the devices. -/
def AutoQNH_calibrates (L : Library) (bb : DeviceBlackboard) : Bool :=
  decide ((AutoQNH L bb).devices_qnh ≠ bb.devices_qnh)

/-- The state a call of `AutoQNH()` finds in a longer run: the rest of the
program has left the blackboard and the globals as `env`, and only the
function-static countdown `c` is carried over from the previous call. -/
def AutoQNH_entry (c : Nat) (env : DeviceBlackboard) : DeviceBlackboard :=
  { env with countdown_autoqnh := c }

/-- The countdown after a sequence of calls of `AutoQNH()`, one per element of
`envs`, starting with the countdown `c`. -/
def AutoQNH_run (L : Library) : Nat → List DeviceBlackboard → Nat
  | c, [] => c
  | c, env :: rest =>
      AutoQNH_run L (AutoQNH L (AutoQNH_entry c env)).countdown_autoqnh rest

/-- The number of calls in such a sequence that perform the calibration. -/
def AutoQNH_count (L : Library) : Nat → List DeviceBlackboard → Nat
  | _, [] => 0
  | c, env :: rest =>
      (if AutoQNH_calibrates L (AutoQNH_entry c env) then 1 else 0)
        + AutoQNH_count L (AutoQNH L (AutoQNH_entry c env)).countdown_autoqnh rest

/-! ### Concrete states, to run the definitions on -/

/-- A raw observation with every value zero and every stamp cleared. -/
def NMEA_INFO.zero : NMEA_INFO :=
  { Connected := Validity.clear
    gps := { NAVWarning := false, SatellitesUsed := 0, Simulator := false,
             Replay := false, MovementDetected := false }
    acceleration := { Available := false, Gload := 0, BankAngle := ⟨0⟩, PitchAngle := ⟨0⟩ }
    Location := { Longitude := ⟨0⟩, Latitude := ⟨0⟩ }
    TrackBearing := ⟨0⟩
    GroundSpeed := 0
    AirspeedAvailable := Validity.clear
    GPSAltitudeAvailable := Validity.clear
    GPSAltitude := 0
    BaroAltitudeAvailable := Validity.clear
    BaroAltitude := 0
    PressureAltitudeAvailable := Validity.clear
    PressureAltitude := 0
    QNHAvailable := Validity.clear
    pressure := { qnh := 0 }
    NavAltitude := 0
    EnergyHeight := 0
    TEAltitude := 0
    Time := 0
    TotalEnergyVarioAvailable := Validity.clear
    TotalEnergyVario := 0
    NettoVarioAvailable := Validity.clear
    NettoVario := 0
    GPSVario := 0
    GPSVarioTE := 0
    BruttoVario := 0
    GliderSinkRate := 0
    TurnRate := 0
    TurnRateWind := 0
    Heading := ⟨0⟩
    ExternalWindAvailable := Validity.clear
    ExternalWind := { bearing := ⟨0⟩, norm := 0 }
    WindAvailable := Validity.clear
    wind := { bearing := ⟨0⟩, norm := 0 }
    MacCready := 0
    flarm := { available := false, traffic := [] } }

/-- Derived information with every value zero and every flag off. -/
def DERIVED_INFO.zero : DERIVED_INFO :=
  { flight := { Flying := false, OnGround := false }
    AirspeedAvailable := false
    TrueAirspeed := 0
    IndicatedAirspeed := 0
    estimated_wind := { bearing := ⟨0⟩, norm := 0 }
    estimated_wind_available := Validity.clear
    TerrainValid := false
    TerrainAlt := 0 }

/-- Settings with every value zero and every flag off. -/
def SETTINGS_COMPUTER.zero : SETTINGS_COMPUTER :=
  { ExternalWind := false
    ManualWindAvailable := Validity.clear
    ManualWind := { bearing := ⟨0⟩, norm := 0 }
    AutoWindMode := 0
    EnableNavBaroAltitude := false }

/-- A blackboard made of the zero records, with the countdown of `AutoQNH()` at
its initial value, an empty waypoint database and nothing broadcast. -/
def DeviceBlackboard.zero : DeviceBlackboard :=
  { gps_info := NMEA_INFO.zero
    state_last := NMEA_INFO.zero
    calculated_info := DERIVED_INFO.zero
    settings_computer := SETTINGS_COMPUTER.zero
    countdown_autoqnh := QNH_TIME
    interface_settings_computer := SETTINGS_COMPUTER.zero
    way_points := fun _ _ => none
    devices_qnh := [] }

/-- Stand-ins for the library routines, for running the definitions on concrete
states: angles are taken in degrees, the trigonometric routines are constant,
and the QNH formula adds one hectopascal per eight metres to 1013.25. -/
def Library.sample : Library :=
  { fastsine := fun _ => 0
    fastcosine := fun _ => 1
    atan2 := fun _ _ => 0
    atan := fun _ => 0
    cos := fun _ => 1
    Angle_radians := fun v => ⟨v⟩
    Angle_degrees := fun v => ⟨v⟩
    value_radians := fun a => a.value
    value_degrees := fun a => a.value
    as_bearing := fun a => a
    as_delta := fun a => a
    FindQNHFromPressureAltitude := fun _ alt_raw alt_known =>
      4053 / 4 + (alt_known - alt_raw) / 8
    LookupCallsign := fun _ => none
    timeouts := { Airspeed := 30, GPSAltitude := 30, BaroAltitude := 30,
                  PressureAltitude := 30, QNH := 30, TotalEnergyVario := 30,
                  NettoVario := 30, ExternalWind := 600, Wind := 600,
                  EstimatedWind := 3600 } }

/-- A glide polar with a constant sink rate, for running the definitions. -/
def GlidePolar.sample : GlidePolar := { SinkRate := fun _ _ => 1 }

/-- External and manual wind both available, auto-wind mode 0, external wind
enabled in the settings. -/
def wind_state_enabled : DeviceBlackboard :=
  { DeviceBlackboard.zero with
    gps_info :=
      { NMEA_INFO.zero with
        Time := 2
        ExternalWindAvailable := Validity.update 1
        ExternalWind := { bearing := ⟨90⟩, norm := 5 } }
    settings_computer :=
      { SETTINGS_COMPUTER.zero with
        ExternalWind := true
        ManualWindAvailable := Validity.update 1
        ManualWind := { bearing := ⟨180⟩, norm := 3 } } }

/-- The state `wind_state_enabled` with external wind disabled in the settings
and nothing else changed. -/
def wind_state_disabled : DeviceBlackboard :=
  { wind_state_enabled with
    settings_computer :=
      { wind_state_enabled.settings_computer with ExternalWind := false } }

/-- The state `wind_state_enabled` at another time, altitude and wind. -/
def wind_state_other : DeviceBlackboard :=
  { wind_state_enabled with
    gps_info :=
      { wind_state_enabled.gps_info with
        Time := 7
        GPSAltitude := 100
        ExternalWindAvailable := Validity.update 6
        ExternalWind := { bearing := ⟨270⟩, norm := 8 } } }

/-- A state whose current sample (time 0, altitude 100) is older than the
history sample (time 1, altitude 50). -/
def tick_state_rewind : DeviceBlackboard :=
  { DeviceBlackboard.zero with
    gps_info := { NMEA_INFO.zero with Time := 0, GPSAltitude := 100 }
    state_last := { NMEA_INFO.zero with Time := 1, GPSAltitude := 50 } }

/-- A state with no elapsed time (both samples at time 3), not flying, with a
turn rate of 5 left from before. -/
def turn_state_grounded : DeviceBlackboard :=
  { DeviceBlackboard.zero with
    gps_info := { NMEA_INFO.zero with Time := 3, TurnRate := 5, TrackBearing := ⟨40⟩ }
    state_last := { NMEA_INFO.zero with Time := 3, TrackBearing := ⟨10⟩ } }

/-- The state `turn_state_grounded`, but flying, with GPS varios 2 and 3 left
from before and an altitude that differs from the history sample. -/
def turn_state_flying : DeviceBlackboard :=
  { turn_state_grounded with
    gps_info :=
      { turn_state_grounded.gps_info with
        GPSVario := 2, GPSVarioTE := 3, NavAltitude := 120, TEAltitude := 130 }
    calculated_info :=
      { DERIVED_INFO.zero with flight := { Flying := true, OnGround := false } } }

/-- A state on the ground with a valid fix and pressure altitude 100, QNH not
known, the countdown of `AutoQNH()` at 1, no waypoint nearby and valid terrain
at altitude 120. -/
def qnh_state_terrain : DeviceBlackboard :=
  { DeviceBlackboard.zero with
    gps_info :=
      { NMEA_INFO.zero with
        Time := 1
        PressureAltitudeAvailable := Validity.update 1
        PressureAltitude := 100 }
    calculated_info :=
      { DERIVED_INFO.zero with
        flight := { Flying := false, OnGround := true }
        TerrainValid := true
        TerrainAlt := 120 }
    countdown_autoqnh := 1 }

/-- The global object `device_blackboard` before `Initialise()`: an object of
static storage duration, hence zero-initialised, with the countdown of
`AutoQNH()` at its initial value. -/
def device_blackboard : DeviceBlackboard := DeviceBlackboard.zero

/-- Derived information that only says the aircraft is flying. -/
def flying_info : DERIVED_INFO :=
  { DERIVED_INFO.zero with flight := { Flying := true, OnGround := false } }

/-- The initial blackboard of the scenario: the global object after
`Initialise()` at 12:00:00 UTC, with `flying = true` read from the glide
computer. -/
def scenario_initial : DeviceBlackboard :=
  ReadBlackboard flying_info (Initialise 12 0 0 device_blackboard)

/-- A sample of the scenario written into the current observation: time `t`,
GPS altitude `alt`, track bearing 45, ground speed 0, a valid fix and no
barometric altitude. -/
def scenario_sample (t alt : ℚ) (bb : DeviceBlackboard) : DeviceBlackboard :=
  { bb with gps_info :=
      { bb.gps_info with
        Time := t
        GPSAltitude := alt
        GPSAltitudeAvailable := Validity.update t
        BaroAltitudeAvailable := Validity.clear
        TrackBearing := ⟨45⟩
        GroundSpeed := 0 } }

/-- The scenario: the sweep on a sample at time `t0` with altitude 100, then on
a sample at time `t1` with altitude 110. -/
def scenario_run (t0 t1 : ℚ) : DeviceBlackboard :=
  tick Library.sample GlidePolar.sample
    (scenario_sample t1 110
      (tick Library.sample GlidePolar.sample (scenario_sample t0 100 scenario_initial)))

/-- A state one second after the history sample in which the navigation altitude
rose from 100 to 110 and the total-energy altitude from 100 to 130, with no
instrument vario. -/
def vario_state_energy : DeviceBlackboard :=
  { DeviceBlackboard.zero with
    gps_info :=
      { NMEA_INFO.zero with Time := 1, GPSAltitude := 110, NavAltitude := 110,
                            EnergyHeight := 20, TEAltitude := 130 }
    state_last :=
      { NMEA_INFO.zero with Time := 0, GPSAltitude := 100, NavAltitude := 100,
                            TEAltitude := 100 } }

/-- A state one second after the history sample with barometric navigation
altitude enabled and available: the GPS altitude rose from 100 to 110, the
barometric altitude from 200 (the navigation altitude of the history sample) to
230. -/
def vario_state_baro : DeviceBlackboard :=
  { DeviceBlackboard.zero with
    gps_info :=
      { NMEA_INFO.zero with Time := 1, GPSAltitude := 110,
                            BaroAltitudeAvailable := Validity.update 1,
                            BaroAltitude := 230 }
    state_last :=
      { NMEA_INFO.zero with Time := 0, GPSAltitude := 100,
                            BaroAltitudeAvailable := Validity.update 0,
                            BaroAltitude := 200, NavAltitude := 200 }
    settings_computer := { SETTINGS_COMPUTER.zero with EnableNavBaroAltitude := true } }

/-- The state `vario_state_baro` with barometric navigation altitude disabled
and a history sample whose navigation altitude is its GPS altitude. -/
def vario_state_gps : DeviceBlackboard :=
  { vario_state_baro with
    state_last := { vario_state_baro.state_last with NavAltitude := 100 }
    settings_computer := SETTINGS_COMPUTER.zero }

/-- A flying state with airspeed available, a vario estimate of 2 and an
instrument-supplied netto vario of 7. -/
def netto_state_instrument : DeviceBlackboard :=
  { DeviceBlackboard.zero with
    gps_info :=
      { NMEA_INFO.zero with
        Time := 1
        BruttoVario := 2
        NettoVarioAvailable := Validity.update 1
        NettoVario := 7
        acceleration := { Available := false, Gload := 1, BankAngle := ⟨0⟩, PitchAngle := ⟨0⟩ } }
    calculated_info :=
      { DERIVED_INFO.zero with
        flight := { Flying := true, OnGround := false }
        AirspeedAvailable := true
        TrueAirspeed := 30
        IndicatedAirspeed := 28 } }

/-- The state `netto_state_instrument` without the instrument-supplied netto
vario. -/
def netto_state_computed : DeviceBlackboard :=
  { netto_state_instrument with
    gps_info :=
      { netto_state_instrument.gps_info with NettoVarioAvailable := Validity.clear } }

/-- A flying state, two seconds after the history sample, with ground speed 20
on track 90, up from track 60, and true airspeed 30. -/
def turn_state_moving : DeviceBlackboard :=
  { DeviceBlackboard.zero with
    gps_info :=
      { NMEA_INFO.zero with Time := 5, GroundSpeed := 20, TrackBearing := ⟨90⟩,
                            Heading := ⟨90⟩ }
    state_last := { NMEA_INFO.zero with Time := 3, TrackBearing := ⟨60⟩, Heading := ⟨60⟩ }
    calculated_info :=
      { DERIVED_INFO.zero with
        flight := { Flying := true, OnGround := false }
        AirspeedAvailable := true
        TrueAirspeed := 30 } }

/-- Stand-ins for the library routines like `Library.sample`, with angles
normalised as the real routines do: `as_bearing` into `[0, 360)` and `as_delta`
into `[-180, 180)`, and a cosine that is constant 1/2. -/
def Library.normalising : Library :=
  { Library.sample with
    cos := fun _ => 1 / 2
    as_bearing := fun a => ⟨a.value - ⌊a.value / 360⌋ * 360⟩
    as_delta := fun a => ⟨a.value + 180 - ⌊(a.value + 180) / 360⌋ * 360 - 180⟩ }

/-- A closed link. -/
def link_closed : Port1Link :=
  { hPort1 := none, open_handles := [], reader_running := false, Port1CloseThread := false }

/-- The port opens with handle 7 and `SetCommState` rejects the requested
settings, as it does for an invalid baud rate. -/
def system_settings_rejected : Port1System :=
  { CreateFile := some 7, SetCommState := false, SetCommTimeouts := true,
    CreateThread := true, ReadTotalTimeoutConstant := 0 }

/-- The port opens with handle 7, the settings are accepted and `CreateThread`
fails. -/
def system_thread_refused : Port1System :=
  { CreateFile := some 7, SetCommState := true, SetCommTimeouts := true,
    CreateThread := false, ReadTotalTimeoutConstant := 0 }

/-- The port cannot be opened. -/
def system_port_absent : Port1System :=
  { CreateFile := none, SetCommState := true, SetCommTimeouts := true,
    CreateThread := true, ReadTotalTimeoutConstant := 0 }

/-! ## Profile map: `src/Profile/ProfileMap.cpp`

A `tstring` is the list of its character codes.  A `std::map` is the list of its
entries in iteration order, with distinct keys. -/

/-- A `tstring` or C string, by its character codes. -/
abbrev tstring := List Nat

/-- The statics `ProfileMap::map_str` and `ProfileMap::map_num`. -/
structure ProfileMap where
  map_str : List (tstring × tstring)
  map_num : List (tstring × Nat)
deriving DecidableEq, Repr

/-- The lookup `map.find(key)`; `none` stands for `map.end()`. -/
def map_find {V : Type} : List (tstring × V) → tstring → Option V
  | [], _ => none
  | (k, v) :: rest, key => if k = key then some v else map_find rest key

/-- The assignment `map[key] = value`: an entry with that key is overwritten,
otherwise a new entry is added. -/
def map_assign {V : Type} : List (tstring × V) → tstring → V → List (tstring × V)
  | [], key, value => [(key, value)]
  | (k, v) :: rest, key, value =>
      if k = key then (k, value) :: rest else (k, v) :: map_assign rest key value

/-- The conversion of an integer value to `DWORD`, an unsigned 32-bit type. -/
def DWORD (l : Int) : Nat := (l % 4294967296).toNat

/-- The method `ProfileMap::Get(szRegValue, DWORD &pPos)`: the value stored in
`pPos`, or `none` when it returns false. -/
def ProfileMap.Get_num (pm : ProfileMap) (szRegValue : tstring) : Option Nat :=
  map_find pm.map_num szRegValue

/-- The method `ProfileMap::Set(szRegValue, DWORD Pos)`. -/
def ProfileMap.Set_num (pm : ProfileMap) (szRegValue : tstring) (Pos : Nat) : ProfileMap :=
  { pm with map_num := map_assign pm.map_num szRegValue Pos }

/-- The method `ProfileMap::Get(szRegValue, TCHAR *pPos, dwSize)`: the characters
that `_tcsncpy` copies to `pPos`, or `none` when it returns false. -/
def ProfileMap.Get_str (pm : ProfileMap) (szRegValue : tstring) (dwSize : Nat) :
    Option tstring :=
  (map_find pm.map_str szRegValue).map (fun value => value.take dwSize)

/-- The method `ProfileMap::Set(szRegValue, const TCHAR *Pos)`. -/
def ProfileMap.Set_str (pm : ProfileMap) (szRegValue : tstring) (Pos : tstring) : ProfileMap :=
  { pm with map_str := map_assign pm.map_str szRegValue Pos }

/-- Decimal digits of a natural number, most significant first, as printed by
`%d` and `%u`. -/
def decimal (n : Nat) : tstring :=
  if n = 0 then [48] else ((Nat.digits 10 n).reverse.map (fun d => d + 48))

/-- The conversion `%d` of `printf` applied to a `DWORD`: the 32 bits are read as
a signed `int`. -/
def printf_d (value : Nat) : tstring :=
  if value % 4294967296 < 2147483648 then decimal (value % 4294967296)
  else 45 :: decimal (4294967296 - value % 4294967296)

/-- The function `isspace` of the C locale. -/
def isspace (c : Nat) : Bool := c == 32 || (9 ≤ c && c ≤ 13)

/-- The function `isdigit`. -/
def isdigit (c : Nat) : Bool := 48 ≤ c && c ≤ 57

/-- The call `_tcstol(value, &p, 10)` with a 32-bit `long`: the result and the
number of characters between `value` and `p`.  White space is skipped, a sign
is accepted, the digits are converted; without digits nothing is consumed, and
a value out of range is clamped to `LONG_MIN` or `LONG_MAX`. -/
def tcstol (value : tstring) : Int × Nat :=
  let space := value.takeWhile isspace
  let rest := value.dropWhile isspace
  let negative := rest.head? == some 45
  let signed := rest.head? == some 45 || rest.head? == some 43
  let rest := if signed then rest.tail else rest
  let digits := rest.takeWhile isdigit
  if digits = [] then (0, 0)
  else
    let magnitude : Int := (digits.foldl (fun acc c => acc * 10 + (c - 48)) 0 : Nat)
    let l : Int := if negative then - magnitude else magnitude
    let l := if l < -2147483648 then -2147483648 else if 2147483647 < l then 2147483647 else l
    (l, space.length + (if signed then 1 else 0) + digits.length)

/-- Modelled from the spec: `TextWriter::printfln` and `FileLineReader::read`,
whose sources are missing, on a flat text file: `printfln` writes the formatted
text and a line feed, `read` returns the lines one by one without the line
feed.  This is the reader: the lines of a file, `current` being the part of the
line read so far, in reverse. -/
def read_lines : tstring → tstring → List tstring
  | [], current => if current = [] then [] else [current.reverse]
  | c :: rest, current =>
      if c = 10 then current.reverse :: read_lines rest []
      else read_lines rest (c :: current)

/-- Modelled from the spec: `TextWriter::printfln`, whose source is missing; it
appends the formatted text and a line feed to the file. -/
def printfln (file : tstring) (text : tstring) : tstring := file ++ text ++ [10]

/-- The body of the `while` loop of `ProfileMap::Import` for one line.
`PROFILE_KEY_PREFIX` is the macro of that name, `none` when it is not defined. -/
def Import_line (PROFILE_KEY_PREFIX : Option tstring) (pm : ProfileMap) (line : tstring) :
    ProfileMap :=
  if line = [] || line.head? == some 35 then pm
  else
    let name := line.takeWhile (fun c => c != 61)
    match line.dropWhile (fun c => c != 61) with
    | [] => pm
    | _ :: value =>
        if name = [] then pm
        else
          let key :=
            match PROFILE_KEY_PREFIX with
            | some pre => pre ++ name
            | none => name
          match value with
          | 34 :: quoted =>
              if quoted.dropWhile (fun c => c != 34) = [] then pm
              else pm.Set_str key (quoted.takeWhile (fun c => c != 34))
          | _ =>
              let l := tcstol value
              if 0 < l.2 then pm.Set_num key (DWORD l.1) else pm

/-- The method `ProfileMap::Import(szFile)`; `contents` is the text of the file,
`none` when the reader reports an error. -/
def ProfileMap.Import (PROFILE_KEY_PREFIX : Option tstring) (szFile : tstring)
    (contents : Option tstring) (pm : ProfileMap) : ProfileMap :=
  if szFile = [] then pm
  else
    match contents with
    | none => pm
    | some text => (read_lines text []).foldl (Import_line PROFILE_KEY_PREFIX) pm

/-- The method `ProfileMap::Export(szFile)`: the text written to the file, `none`
when nothing is written; `writer_error` says that the file cannot be opened
for writing. -/
def ProfileMap.Export (szFile : tstring) (writer_error : Bool) (pm : ProfileMap) :
    Option tstring :=
  if szFile = [] then none
  else if writer_error then none
  else
    let file := pm.map_num.foldl
      (fun file it_num => printfln file (it_num.1 ++ [61] ++ printf_d it_num.2)) []
    let file := pm.map_str.foldl
      (fun file it_str =>
        if it_str.2 ≠ [] then printfln file (it_str.1 ++ [61, 34] ++ it_str.2 ++ [34])
        else printfln file (it_str.1 ++ [61, 34, 34])) file
    some file

/-- The line that `Export` writes for a number. -/
def num_line (it_num : tstring × Nat) : tstring := it_num.1 ++ [61] ++ printf_d it_num.2

/-- The line that `Export` writes for a string. -/
def str_line (it_str : tstring × tstring) : tstring :=
  it_str.1 ++ [61, 34] ++ it_str.2 ++ [34]

/-- The condition on a key: non-empty, without `=`, without line break, not
starting with `#`. -/
def profile_key_ok (key : tstring) : Prop :=
  key ≠ [] ∧ 61 ∉ key ∧ 10 ∉ key ∧ 13 ∉ key ∧ key.head? ≠ some 35

instance (key : tstring) : Decidable (profile_key_ok key) := by
  unfold profile_key_ok
  infer_instance

/-- The condition on a string value: without `"` and without line break. -/
def profile_value_ok (value : tstring) : Prop :=
  34 ∉ value ∧ 10 ∉ value ∧ 13 ∉ value

instance (value : tstring) : Decidable (profile_value_ok value) := by
  unfold profile_value_ok
  infer_instance

/-- The empty profile map. -/
def ProfileMap.empty : ProfileMap := { map_str := [], map_num := [] }

/-- The character codes of a string literal. -/
def codes (s : String) : tstring := s.toList.map Char.toNat

/-- A profile map with two numbers, one of them above `2^31`, and two strings,
one of them empty. -/
def profile_sample : ProfileMap :=
  { map_num := [(codes "Altitude", 1200), (codes "Mask", 4294967295)]
    map_str := [(codes "Name", codes "D-1234 = glider"), (codes "Pilot", [])] }

/-! ## Theorems: serial port -/

theorem hexDigitUpper_eq (d : Nat) (h : d < 16) :
    hexDigitUpper d = if d < 10 then 48 + d else 55 + d := by
  interval_cases d <;> rfl

theorem hexDigitUpper_lt (d : Nat) : hexDigitUpper d < 256 := by
  by_cases h : d < 16
  · interval_cases d <;> decide
  · have h16 : 16 ≤ d := Nat.le_of_not_lt h
    have hlen : ("0123456789ABCDEF".toList.map Char.toNat).length ≤ d := by
      simpa using h16
    unfold hexDigitUpper
    rw [List.getD_eq_default _ _ hlen]
    decide

theorem BYTE_lt (c : Nat) : BYTE c < 256 := Nat.mod_lt _ (by decide)

theorem BYTE_of_lt {c : Nat} (h : c < 256) : BYTE c = c := Nat.mod_eq_of_lt h

theorem xorAll_lt (bs : List Nat) (h : ∀ b ∈ bs, b < 256) : xorAll bs < 256 := by
  induction bs with
  | nil => decide
  | cons b bs ih =>
      have hb : b < 2 ^ 8 := h b (List.mem_cons_self _ _)
      have ht : xorAll bs < 2 ^ 8 := ih (fun x hx => h x (List.mem_cons_of_mem _ hx))
      exact Nat.xor_lt_two_pow hb ht

theorem xorAll_map_BYTE_lt (Text : List Nat) : xorAll (Text.map BYTE) < 256 := by
  apply xorAll_lt
  intro b hb
  obtain ⟨c, _, rfl⟩ := List.mem_map.mp hb
  exact BYTE_lt c

theorem Port1Write_open (p : PortState) (b : Nat) (h : p.hPort1_valid = true) :
    Port1Write p b = { hPort1_valid := true, written := p.written ++ [b] } := by
  cases p with
  | mk v w =>
    simp only at h
    subst h
    simp [Port1Write]

theorem Port1Write_mk_open (w : List Nat) (b : Nat) :
    Port1Write { hPort1_valid := true, written := w } b =
      { hPort1_valid := true, written := w ++ [b] } :=
  Port1Write_open _ _ rfl

/-- The loop of `Port1WriteNMEA` on an open port: it appends the bytes of the
text in order and folds them into the checksum. -/
theorem Port1WriteNMEA_loop_open (Text : List Nat) (chk : Nat) (w : List Nat)
    (hchk : chk < 256) :
    Port1WriteNMEA_loop Text (chk, { hPort1_valid := true, written := w }) =
      (chk ^^^ xorAll (Text.map BYTE),
        { hPort1_valid := true, written := w ++ Text.map BYTE }) := by
  induction Text generalizing chk w with
  | nil => simp [Port1WriteNMEA_loop, xorAll]
  | cons c rest ih =>
      have hx : chk ^^^ BYTE c < 2 ^ 8 := Nat.xor_lt_two_pow hchk (BYTE_lt c)
      have hmod : (chk ^^^ BYTE c) % 256 = chk ^^^ BYTE c := Nat.mod_eq_of_lt hx
      rw [Port1WriteNMEA_loop, hmod, Port1Write_open _ _ rfl, ih _ _ hx]
      simp [xorAll, Nat.xor_assoc]

/-- What `Port1WriteNMEA` hands to an open port, in full. -/
theorem Port1WriteNMEA_open (w : List Nat) (Text : List Nat) :
    Port1WriteNMEA { hPort1_valid := true, written := w } Text =
      { hPort1_valid := true,
        written := w ++ ([36] ++ Text.map BYTE ++ [42] ++
          [hexDigitUpper (xorAll (Text.map BYTE) / 16),
           hexDigitUpper (xorAll (Text.map BYTE) % 16)] ++ [13, 10]) } := by
  have hlt := xorAll_map_BYTE_lt Text
  have hdiv : xorAll (Text.map BYTE) / 16 % 16 = xorAll (Text.map BYTE) / 16 :=
    Nat.mod_eq_of_lt (by omega)
  simp only [Port1WriteNMEA, Port1Write_mk_open,
    Port1WriteNMEA_loop_open Text 0 _ (by decide), wsprintf_02X, Nat.zero_xor, hdiv,
    BYTE_of_lt (hexDigitUpper_lt _), BYTE_of_lt (show 36 < 256 by decide),
    BYTE_of_lt (show 42 < 256 by decide), BYTE_of_lt (show 13 < 256 by decide),
    BYTE_of_lt (show 10 < 256 by decide)]
  simp

/-- C1. On an open port, `Port1WriteNMEA` writes exactly `$`, the payload bytes
in their order, `*`, the two upper-case hexadecimal digits (high nibble first,
zero-padded) of the XOR of all payload bytes, then CR and LF; that is
`length + 6` bytes, and `$*00\r\n` for the empty payload. -/
theorem Port1WriteNMEA_frame (p : PortState) (Text : List Nat)
    (hopen : p.hPort1_valid = true) :
    (Port1WriteNMEA p Text).written =
        p.written ++ ([36] ++ Text.map BYTE ++ [42] ++
          [hexDigitUpper (xorAll (Text.map BYTE) / 16),
           hexDigitUpper (xorAll (Text.map BYTE) % 16)] ++ [13, 10])
      ∧ (Port1WriteNMEA p Text).written.length = p.written.length + (Text.length + 6)
      ∧ xorAll (Text.map BYTE) / 16 < 16
      ∧ (Port1WriteNMEA p []).written = p.written ++ "$*00\r\n".toList.map Char.toNat := by
  cases p with
  | mk v w =>
    simp only at hopen
    subst hopen
    have hlt := xorAll_map_BYTE_lt Text
    refine ⟨by rw [Port1WriteNMEA_open], ?_, by omega, ?_⟩
    · rw [Port1WriteNMEA_open]
      simp
    · rw [Port1WriteNMEA_open]
      simp only [List.map_nil, List.append_nil]
      congr 1

/-- C1, at the payload `GPRMC` on a freshly opened port. -/
theorem Port1WriteNMEA_frame_witness :
    (Port1WriteNMEA ⟨true, []⟩ [71, 80, 82, 77, 67]).written =
        [] ++ ([36] ++ [71, 80, 82, 77, 67].map BYTE ++ [42] ++
          [hexDigitUpper (xorAll ([71, 80, 82, 77, 67].map BYTE) / 16),
           hexDigitUpper (xorAll ([71, 80, 82, 77, 67].map BYTE) % 16)] ++ [13, 10])
      ∧ (Port1WriteNMEA ⟨true, []⟩ [71, 80, 82, 77, 67]).written.length
          = ([] : List Nat).length + ([71, 80, 82, 77, 67].length + 6)
      ∧ xorAll ([71, 80, 82, 77, 67].map BYTE) / 16 < 16
      ∧ (Port1WriteNMEA ⟨true, []⟩ []).written = [] ++ "$*00\r\n".toList.map Char.toNat :=
  Port1WriteNMEA_frame ⟨true, []⟩ [71, 80, 82, 77, 67] rfl

/-- The model of `Port1WriteNMEA`, run on the payload `GPRMC`. -/
theorem Port1WriteNMEA_GPRMC :
    (Port1WriteNMEA ⟨true, []⟩ [71, 80, 82, 77, 67]).written
      = "$GPRMC*4B\r\n".toList.map Char.toNat := by
  decide

theorem hexValue_hexDigitUpper (d : Nat) (h : d < 16) :
    hexValue (hexDigitUpper d) = some d := by
  interval_cases d <;> decide

theorem parseHexByte_digits (v : Nat) (h : v < 256) :
    parseHexByte (hexDigitUpper (v / 16)) (hexDigitUpper (v % 16)) = some v := by
  have h1 : v / 16 < 16 := by omega
  have h2 : v % 16 < 16 := Nat.mod_lt _ (by decide)
  simp only [parseHexByte, hexValue_hexDigitUpper _ h1, hexValue_hexDigitUpper _ h2]
  congr 1
  omega

/-- Reading back a framed sentence whose payload bytes contain no `*`. -/
theorem rederiveChecksum_frame (bs : List Nat) (hs : ∀ b ∈ bs, b ≠ 42) (v : Nat)
    (hv : v < 256) :
    rederiveChecksum ([36] ++ bs ++ [42] ++
        [hexDigitUpper (v / 16), hexDigitUpper (v % 16)] ++ [13, 10])
      = some (xorAll bs, v) := by
  have hp : ∀ b ∈ bs, (fun b => b != 42) b = true := by
    intro b hb
    simpa using hs b hb
  have hform : [36] ++ bs ++ [42] ++ [hexDigitUpper (v / 16), hexDigitUpper (v % 16)]
        ++ [13, 10]
      = 36 :: (bs ++ 42 :: hexDigitUpper (v / 16) :: hexDigitUpper (v % 16) :: [13, 10]) := by
    simp
  rw [hform]
  simp only [rederiveChecksum, ne_eq, not_true_eq_false, if_false,
    List.dropWhile_append_of_pos hp, List.takeWhile_append_of_pos hp]
  simp [List.dropWhile, List.takeWhile, parseHexByte_digits v hv]

/-- C2. Checksum round trip: for an ASCII payload without `$` and `*`, the XOR
of the bytes between the leading `$` and the first `*` of the sentence written
by `Port1WriteNMEA` equals the byte spelled by the two characters after that
`*`. -/
theorem Port1WriteNMEA_checksum_round_trip (Text : List Nat)
    (hascii : ∀ c ∈ Text, c < 128) (_hdollar : 36 ∉ Text) (hstar : 42 ∉ Text) :
    ∃ v, rederiveChecksum (Port1WriteNMEA ⟨true, []⟩ Text).written = some (v, v)
      ∧ v = xorAll (Text.map BYTE) := by
  refine ⟨xorAll (Text.map BYTE), ?_, rfl⟩
  have hs : ∀ b ∈ Text.map BYTE, b ≠ 42 := by
    intro b hb
    obtain ⟨c, hc, rfl⟩ := List.mem_map.mp hb
    have hlt : c < 256 := lt_trans (hascii c hc) (by decide)
    rw [BYTE_of_lt hlt]
    intro h
    exact hstar (h ▸ hc)
  rw [Port1WriteNMEA_open, List.nil_append]
  exact rederiveChecksum_frame _ hs _ (xorAll_map_BYTE_lt Text)

/-- C2, at the payload `GPRMC`. -/
theorem Port1WriteNMEA_checksum_round_trip_witness :
    ∃ v, rederiveChecksum (Port1WriteNMEA ⟨true, []⟩ [71, 80, 82, 77, 67]).written
        = some (v, v)
      ∧ v = xorAll ([71, 80, 82, 77, 67].map BYTE) :=
  Port1WriteNMEA_checksum_round_trip [71, 80, 82, 77, 67] (by decide) (by decide) (by decide)

/-! ## Theorems: wind selection -/

theorem Validity.valid_update (t : ℚ) : (Validity.update t).valid = true := rfl

theorem Validity.valid_clear : Validity.clear.valid = false := rfl

theorem Validity.valid_of_modified {v other : Validity} (h : v.modified other = true) :
    v.valid = true := by
  cases v with
  | mk l =>
    cases l with
    | none => simp [Validity.modified] at h
    | some a => rfl

/-- The branch read off by `Wind_source` is the one `Wind()` executes. -/
theorem Wind_eq_of_source (bb : DeviceBlackboard) :
    Wind bb =
      match Wind_source bb with
      | .external =>
          { bb with gps_info :=
              { bb.gps_info with wind := bb.gps_info.ExternalWind
                                 WindAvailable := bb.gps_info.ExternalWindAvailable } }
      | .manual =>
          { bb with gps_info :=
              { bb.gps_info with
                wind := bb.settings_computer.ManualWind
                WindAvailable :=
                  if bb.settings_computer.AutoWindMode == 0 then
                    Validity.update bb.gps_info.Time
                  else bb.settings_computer.ManualWindAvailable } }
      | .estimated =>
          { bb with
            gps_info :=
              { bb.gps_info with
                wind := bb.calculated_info.estimated_wind
                WindAvailable := bb.calculated_info.estimated_wind_available }
            interface_settings_computer :=
              { bb.interface_settings_computer with ManualWindAvailable := Validity.clear } }
      | .none =>
          { bb with gps_info := { bb.gps_info with WindAvailable := Validity.clear } } := by
  unfold Wind Wind_source
  by_cases h1 : (bb.gps_info.ExternalWindAvailable.valid && bb.settings_computer.ExternalWind) = true
  · simp [h1]
  · by_cases h2 : (bb.settings_computer.ManualWindAvailable.valid
        && bb.settings_computer.AutoWindMode == 0) = true
    · simp only [h1, h2, if_true, if_false]
      simp only [Bool.and_eq_true] at h2
      simp [h2.2]
    · by_cases h3 : (bb.calculated_info.estimated_wind_available.modified
          bb.settings_computer.ManualWindAvailable
          && bb.settings_computer.AutoWindMode != 0) = true
      · simp [h1, h2, h3]
      · by_cases h4 : (bb.settings_computer.ManualWindAvailable.valid
            && bb.settings_computer.AutoWindMode != 0) = true
        · simp only [h1, h2, h3, h4, if_true, if_false]
          simp only [Bool.and_eq_true, bne_iff_ne, ne_eq] at h4
          simp [h4.2]
        · simp [h1, h2, h3, h4]

/-- C3. `Wind()` takes the first rule that applies: (i) the external wind when
available and enabled in the settings; (ii) the manual wind when available and
auto-wind mode is 0; (iii) the estimated wind when newer than the manual wind
and auto-wind mode is enabled, clearing the manual-wind flag; (iv) the manual
wind when available and auto-wind mode is enabled; otherwise the selected wind
is marked unavailable.  In (i) to (iv) the stored vector is that of the source
and the selected wind is marked available. -/
theorem Wind_selection (bb : DeviceBlackboard) :
    ((external_wind_available bb && bb.settings_computer.ExternalWind) = true →
        (Wind bb).gps_info.wind = bb.gps_info.ExternalWind
        ∧ (Wind bb).gps_info.WindAvailable.valid = true)
    ∧ ((external_wind_available bb && bb.settings_computer.ExternalWind) = false →
        (manual_wind_available bb && !auto_wind_enabled bb) = true →
        (Wind bb).gps_info.wind = bb.settings_computer.ManualWind
        ∧ (Wind bb).gps_info.WindAvailable.valid = true)
    ∧ ((external_wind_available bb && bb.settings_computer.ExternalWind) = false →
        (manual_wind_available bb && !auto_wind_enabled bb) = false →
        (estimated_wind_newer bb && auto_wind_enabled bb) = true →
        (Wind bb).gps_info.wind = bb.calculated_info.estimated_wind
        ∧ (Wind bb).gps_info.WindAvailable.valid = true
        ∧ (Wind bb).interface_settings_computer.ManualWindAvailable.valid = false)
    ∧ ((external_wind_available bb && bb.settings_computer.ExternalWind) = false →
        (manual_wind_available bb && !auto_wind_enabled bb) = false →
        (estimated_wind_newer bb && auto_wind_enabled bb) = false →
        (manual_wind_available bb && auto_wind_enabled bb) = true →
        (Wind bb).gps_info.wind = bb.settings_computer.ManualWind
        ∧ (Wind bb).gps_info.WindAvailable.valid = true)
    ∧ ((external_wind_available bb && bb.settings_computer.ExternalWind) = false →
        (manual_wind_available bb && !auto_wind_enabled bb) = false →
        (estimated_wind_newer bb && auto_wind_enabled bb) = false →
        (manual_wind_available bb && auto_wind_enabled bb) = false →
        (Wind bb).gps_info.WindAvailable.valid = false) := by
  simp only [external_wind_available, manual_wind_available, auto_wind_enabled,
    estimated_wind_newer]
  have e0 : ∀ m : Int, (!(m != 0)) = (m == 0) := by
    intro m
    cases h : (m == 0) <;> simp [bne, h]
  rw [e0]
  refine ⟨?_, ?_, ?_, ?_, ?_⟩
  · intro h1
    have hv : bb.gps_info.ExternalWindAvailable.valid = true :=
      (Bool.and_eq_true_iff.mp h1).1
    simp only [Wind, h1, if_true, true_and]
    exact hv
  · intro h1 h2
    simp only [Wind, h1, h2, if_true, if_false, Bool.false_eq_true, true_and]
    rfl
  · intro h1 h2 h3
    have hv := Validity.valid_of_modified (Bool.and_eq_true_iff.mp h3).1
    simp only [Wind, h1, h2, h3, if_true, if_false, Bool.false_eq_true, true_and]
    exact ⟨hv, rfl⟩
  · intro h1 h2 h3 h4
    have hv : bb.settings_computer.ManualWindAvailable.valid = true :=
      (Bool.and_eq_true_iff.mp h4).1
    simp only [Wind, h1, h2, h3, h4, if_true, if_false, Bool.false_eq_true, true_and]
    exact hv
  · intro h1 h2 h3 h4
    simp only [Wind, h1, h2, h3, h4, if_true, if_false, Bool.false_eq_true]
    rfl

/-- C4, counterexample. Two states that agree on the four inputs (external wind
available, manual wind available, auto-wind mode, estimated wind newer) and
differ only in the setting that enables external wind: `Wind()` chooses the
external wind in one and the manual wind in the other. -/
theorem Wind_source_four_inputs_counterexample :
    external_wind_available wind_state_enabled = external_wind_available wind_state_disabled
    ∧ manual_wind_available wind_state_enabled = manual_wind_available wind_state_disabled
    ∧ auto_wind_enabled wind_state_enabled = auto_wind_enabled wind_state_disabled
    ∧ estimated_wind_newer wind_state_enabled = estimated_wind_newer wind_state_disabled
    ∧ Wind_source wind_state_enabled = WindSource.external
    ∧ Wind_source wind_state_disabled = WindSource.manual
    ∧ (Wind wind_state_enabled).gps_info.wind = { bearing := ⟨90⟩, norm := 5 }
    ∧ (Wind wind_state_disabled).gps_info.wind = { bearing := ⟨180⟩, norm := 3 } := by
  refine ⟨rfl, rfl, rfl, rfl, rfl, rfl, rfl, rfl⟩

/-- C4, amended. The source chosen by `Wind()` is a function of five booleans:
external wind available, external wind enabled in the settings, manual wind
available, auto-wind mode enabled, estimated wind newer than manual wind.  Two
states that agree on these five make `Wind()` choose the same source. -/
theorem Wind_source_five_inputs (bb1 bb2 : DeviceBlackboard)
    (h_ext : external_wind_available bb1 = external_wind_available bb2)
    (h_enabled : bb1.settings_computer.ExternalWind = bb2.settings_computer.ExternalWind)
    (h_manual : manual_wind_available bb1 = manual_wind_available bb2)
    (h_auto : auto_wind_enabled bb1 = auto_wind_enabled bb2)
    (h_newer : estimated_wind_newer bb1 = estimated_wind_newer bb2) :
    Wind_source bb1 = Wind_source bb2 := by
  simp only [external_wind_available, manual_wind_available, auto_wind_enabled,
    estimated_wind_newer] at h_ext h_manual h_auto h_newer
  have e0 : ∀ m : Int, (m == 0) = !(m != 0) := by
    intro m
    cases h : (m == 0) <;> simp [bne, h]
  simp only [Wind_source, e0, h_ext, h_enabled, h_manual, h_auto, h_newer]

/-- C4, amended, at two states that differ in time, altitude and wind values. -/
theorem Wind_source_five_inputs_witness :
    Wind_source wind_state_enabled = Wind_source wind_state_other :=
  Wind_source_five_inputs wind_state_enabled wind_state_other rfl rfl rfl rfl rfl

/-! ## Theorems: the sweep `tick()` and the history sample

Every stage of the sweep leaves the time of the current sample and the history
sample alone. -/

@[simp] theorem NMEA_INFO.expire_Time (T : Timeouts) (b : NMEA_INFO) :
    (b.expire T).Time = b.Time := rfl

@[simp] theorem FLARM_ScanTraffic_Time (L : Library) (bb : DeviceBlackboard) :
    (FLARM_ScanTraffic L bb).gps_info.Time = bb.gps_info.Time := by
  simp only [FLARM_ScanTraffic]
  split <;> rfl

@[simp] theorem FLARM_ScanTraffic_state_last (L : Library) (bb : DeviceBlackboard) :
    (FLARM_ScanTraffic L bb).state_last = bb.state_last := by
  simp only [FLARM_ScanTraffic]
  split <;> rfl

@[simp] theorem Wind_Time (bb : DeviceBlackboard) :
    (Wind bb).gps_info.Time = bb.gps_info.Time := by
  simp only [Wind]
  split_ifs <;> rfl

@[simp] theorem Wind_state_last (bb : DeviceBlackboard) :
    (Wind bb).state_last = bb.state_last := by
  simp only [Wind]
  split_ifs <;> rfl

@[simp] theorem Heading_Time (L : Library) (bb : DeviceBlackboard) :
    (Heading L bb).gps_info.Time = bb.gps_info.Time := by
  simp only [Heading]
  split_ifs <;> rfl

@[simp] theorem Heading_state_last (L : Library) (bb : DeviceBlackboard) :
    (Heading L bb).state_last = bb.state_last := by
  simp only [Heading]
  split_ifs <;> rfl

@[simp] theorem NavAltitude_Time (bb : DeviceBlackboard) :
    (NavAltitude bb).gps_info.Time = bb.gps_info.Time := by
  simp only [NavAltitude]
  split_ifs <;> rfl

@[simp] theorem NavAltitude_state_last (bb : DeviceBlackboard) :
    (NavAltitude bb).state_last = bb.state_last := by
  simp only [NavAltitude]
  split_ifs <;> rfl

@[simp] theorem AutoQNH_Time (L : Library) (bb : DeviceBlackboard) :
    (AutoQNH L bb).gps_info.Time = bb.gps_info.Time := by
  simp only [AutoQNH]
  split_ifs <;> first | rfl | (split <;> rfl)

@[simp] theorem AutoQNH_state_last (L : Library) (bb : DeviceBlackboard) :
    (AutoQNH L bb).state_last = bb.state_last := by
  simp only [AutoQNH]
  split_ifs <;> first | rfl | (split <;> rfl)

@[simp] theorem EnergyHeight_Time (bb : DeviceBlackboard) :
    (EnergyHeight bb).gps_info.Time = bb.gps_info.Time := by
  simp only [EnergyHeight]
  split_ifs <;> rfl

@[simp] theorem EnergyHeight_state_last (bb : DeviceBlackboard) :
    (EnergyHeight bb).state_last = bb.state_last := rfl

@[simp] theorem Vario_Time (bb : DeviceBlackboard) :
    (Vario bb).gps_info.Time = bb.gps_info.Time := by
  simp only [Vario]
  split_ifs <;> rfl

@[simp] theorem Vario_state_last (bb : DeviceBlackboard) :
    (Vario bb).state_last = bb.state_last := rfl

@[simp] theorem NettoVario_Time (gp : GlidePolar) (bb : DeviceBlackboard) :
    (NettoVario gp bb).gps_info.Time = bb.gps_info.Time := by
  simp only [NettoVario]
  split_ifs <;> rfl

@[simp] theorem NettoVario_state_last (gp : GlidePolar) (bb : DeviceBlackboard) :
    (NettoVario gp bb).state_last = bb.state_last := by
  simp only [NettoVario]
  split_ifs <;> rfl

@[simp] theorem TurnRate_Time (L : Library) (bb : DeviceBlackboard) :
    (TurnRate L bb).gps_info.Time = bb.gps_info.Time := by
  simp only [TurnRate]
  split_ifs <;> rfl

@[simp] theorem TurnRate_state_last (L : Library) (bb : DeviceBlackboard) :
    (TurnRate L bb).state_last = bb.state_last := by
  simp only [TurnRate]
  split_ifs <;> rfl

@[simp] theorem Dynamics_Time (L : Library) (bb : DeviceBlackboard) :
    (Dynamics L bb).gps_info.Time = bb.gps_info.Time := by
  simp only [Dynamics, apply_ite DeviceBlackboard.gps_info, apply_ite NMEA_INFO.Time,
    apply_dite NMEA_INFO.Time, ite_self, dite_eq_ite]

theorem tick_eq (L : Library) (gp : GlidePolar) (bb : DeviceBlackboard) :
    tick L gp bb = tick_commit L (tick_before_commit L gp bb) := rfl

theorem tick_before_commit_Time (L : Library) (gp : GlidePolar) (bb : DeviceBlackboard) :
    (tick_before_commit L gp bb).gps_info.Time = bb.gps_info.Time := by
  simp [tick_before_commit, tick_fast, SetSystemTime]

theorem tick_before_commit_state_last (L : Library) (gp : GlidePolar)
    (bb : DeviceBlackboard) :
    (tick_before_commit L gp bb).state_last = bb.state_last := by
  simp [tick_before_commit, tick_fast, SetSystemTime]

theorem tick_commit_Time (L : Library) (bb : DeviceBlackboard) :
    (tick_commit L bb).gps_info.Time = bb.gps_info.Time := by
  simp only [tick_commit]
  split_ifs <;> simp

/-- How `tick()` treats the history sample: kept when the two times are equal,
overwritten with the current observation when they differ. -/
theorem tick_commit_state_last (L : Library) (bb : DeviceBlackboard) :
    (tick_commit L bb).state_last =
      if bb.gps_info.Time ≠ bb.state_last.Time then (tick_commit L bb).gps_info
      else bb.state_last := by
  simp only [tick_commit]
  split_ifs <;> rfl

/-- C5, counterexample. The current sample (time 0) is earlier than the history
sample (time 1), and `tick()` still overwrites the history sample with the
current observation. -/
theorem tick_history_counterexample :
    tick_state_rewind.gps_info.Time ≤ tick_state_rewind.state_last.Time
    ∧ tick_state_rewind.state_last.Time = 1
    ∧ (tick Library.sample GlidePolar.sample tick_state_rewind).state_last.Time = 0
    ∧ (tick Library.sample GlidePolar.sample tick_state_rewind).state_last
        = (tick Library.sample GlidePolar.sample tick_state_rewind).gps_info
    ∧ (tick Library.sample GlidePolar.sample tick_state_rewind).state_last
        ≠ tick_state_rewind.state_last := by
  have h0 : tick_state_rewind.gps_info.Time = 0 := rfl
  have h1 : tick_state_rewind.state_last.Time = 1 := rfl
  have hne : (tick_before_commit Library.sample GlidePolar.sample tick_state_rewind).gps_info.Time
      ≠ (tick_before_commit Library.sample GlidePolar.sample tick_state_rewind).state_last.Time := by
    rw [tick_before_commit_Time, tick_before_commit_state_last, h0, h1]
    norm_num
  have hs : (tick Library.sample GlidePolar.sample tick_state_rewind).state_last
      = (tick Library.sample GlidePolar.sample tick_state_rewind).gps_info := by
    rw [tick_eq, tick_commit_state_last, if_pos hne]
  have ht : (tick Library.sample GlidePolar.sample tick_state_rewind).state_last.Time = 0 := by
    rw [hs, tick_eq, tick_commit_Time, tick_before_commit_Time, h0]
  refine ⟨?_, h1, ht, hs, ?_⟩
  · rw [h0, h1]
    norm_num
  · intro h
    have h2 := congrArg NMEA_INFO.Time h
    rw [ht, h1] at h2
    norm_num at h2

/-- C5, amended. `tick()` overwrites the history sample (`state_last`) with the
current observation exactly when the time of the current sample differs from
the time of the history sample, be it later or earlier; when the two times are
equal the history sample after `tick()` is the one before. -/
theorem tick_history (L : Library) (glide_polar : GlidePolar) (bb : DeviceBlackboard) :
    (bb.gps_info.Time = bb.state_last.Time →
        (tick L glide_polar bb).state_last = bb.state_last)
    ∧ (bb.gps_info.Time ≠ bb.state_last.Time →
        (tick L glide_polar bb).state_last = (tick L glide_polar bb).gps_info
        ∧ (tick L glide_polar bb).state_last.Time = bb.gps_info.Time) := by
  have hT := tick_before_commit_Time L glide_polar bb
  have hL := tick_before_commit_state_last L glide_polar bb
  constructor
  · intro h
    rw [tick_eq, tick_commit_state_last, hT, hL, if_neg (not_not.mpr h)]
  · intro h
    have hs : (tick L glide_polar bb).state_last = (tick L glide_polar bb).gps_info := by
      rw [tick_eq, tick_commit_state_last, hT, hL, if_pos h]
    refine ⟨hs, ?_⟩
    rw [hs, tick_eq, tick_commit_Time, hT]

/-! ## Theorems: no elapsed time -/

/-- C6, counterexample. No time has elapsed (`dT = 0`), the aircraft is not
flying and the previous turn rate is 5: `TurnRate()` does not leave it, it
stores 0. -/
theorem TurnRate_keeps_counterexample :
    turn_state_grounded.gps_info.Time - turn_state_grounded.state_last.Time ≤ 0
    ∧ turn_state_grounded.gps_info.TurnRate = 5
    ∧ (TurnRate Library.sample turn_state_grounded).gps_info.TurnRate = 0
    ∧ (TurnRate Library.sample turn_state_grounded).gps_info.TurnRate
        ≠ turn_state_grounded.gps_info.TurnRate := by
  have h5 : turn_state_grounded.gps_info.TurnRate = 5 := rfl
  have h0 : (TurnRate Library.sample turn_state_grounded).gps_info.TurnRate = 0 := rfl
  refine ⟨?_, h5, h0, ?_⟩
  · show (3 : ℚ) - 3 ≤ 0
    norm_num
  · rw [h0, h5]
    norm_num

/-- C6, amended. When the elapsed time `dT` is not positive, `Vario()` leaves
`GPSVario` and `GPSVarioTE` at their previous values and `TurnRate()` leaves the
turn rate at its previous value while the aircraft is flying, and stores 0 when
it is not flying.  No quotient by `dT` enters the result: `TurnRate()` returns
the state unchanged or with the turn rate zeroed, and `Vario()` returns the
state with only `BruttoVario` reassigned. -/
theorem TurnRate_Vario_without_elapsed_time (L : Library) (bb : DeviceBlackboard)
    (hdT : bb.gps_info.Time - bb.state_last.Time ≤ 0) :
    TurnRate L bb =
        (if bb.calculated_info.flight.Flying then bb
         else { bb with gps_info := { bb.gps_info with TurnRate := 0 } })
    ∧ (bb.calculated_info.flight.Flying = true →
        (TurnRate L bb).gps_info.TurnRate = bb.gps_info.TurnRate)
    ∧ (bb.calculated_info.flight.Flying = false →
        (TurnRate L bb).gps_info.TurnRate = 0)
    ∧ (Vario bb).gps_info.GPSVario = bb.gps_info.GPSVario
    ∧ (Vario bb).gps_info.GPSVarioTE = bb.gps_info.GPSVarioTE
    ∧ Vario bb =
        { bb with gps_info :=
            { bb.gps_info with BruttoVario :=
                if bb.gps_info.TotalEnergyVarioAvailable.valid then
                  bb.gps_info.TotalEnergyVario
                else bb.gps_info.GPSVario } } := by
  have hnp : ¬ positive (bb.gps_info.Time - bb.state_last.Time) := not_lt.mpr hdT
  have hT : TurnRate L bb =
      (if bb.calculated_info.flight.Flying then bb
       else { bb with gps_info := { bb.gps_info with TurnRate := 0 } }) := by
    simp only [TurnRate]
    cases hf : bb.calculated_info.flight.Flying
    · simp
    · simp [hnp]
  have hV : Vario bb =
      { bb with gps_info :=
          { bb.gps_info with BruttoVario :=
              if bb.gps_info.TotalEnergyVarioAvailable.valid then
                bb.gps_info.TotalEnergyVario
              else bb.gps_info.GPSVario } } := by
    simp only [Vario, dif_neg hnp]
  refine ⟨hT, ?_, ?_, ?_, ?_, hV⟩
  · intro hf
    rw [hT, hf]
    rfl
  · intro hf
    rw [hT, hf]
    rfl
  · rw [hV]
  · rw [hV]

/-- C6, amended, at a flying state with both samples at time 3. -/
theorem TurnRate_Vario_without_elapsed_time_witness :
    (TurnRate Library.sample turn_state_flying).gps_info.TurnRate = 5
    ∧ (Vario turn_state_flying).gps_info.GPSVario = 2
    ∧ (Vario turn_state_flying).gps_info.GPSVarioTE = 3 := by
  have h := TurnRate_Vario_without_elapsed_time Library.sample turn_state_flying
    (by show (3 : ℚ) - 3 ≤ 0; norm_num)
  exact ⟨(h.2.1 rfl).trans rfl, h.2.2.2.1.trans rfl, h.2.2.2.2.1.trans rfl⟩

/-! ## Theorems: automatic QNH -/

theorem gate_chain (a z b c d e f : Bool) :
    (!a || z || b || c || d || !e || f) = (!(a && !b && !c && !d && e && !f) || z) := by
  revert a z b c d e f
  decide

theorem AutoQNH_cond (bb : DeviceBlackboard) :
    (!bb.calculated_info.flight.OnGround
      || bb.countdown_autoqnh == 0
      || bb.gps_info.gps.Replay
      || bb.gps_info.gps.Simulator
      || bb.gps_info.gps.NAVWarning
      || !bb.gps_info.PressureAltitudeAvailable.valid
      || bb.gps_info.QNHAvailable.valid)
    = (!AutoQNH_gate bb || bb.countdown_autoqnh == 0) := by
  unfold AutoQNH_gate
  exact gate_chain _ _ _ _ _ _ _

/-- A call on which a gating condition fails, or that finds the countdown at 0. -/
theorem AutoQNH_restart (L : Library) (bb : DeviceBlackboard)
    (h : AutoQNH_gate bb = false ∨ bb.countdown_autoqnh = 0) :
    AutoQNH L bb =
      if bb.countdown_autoqnh ≤ QNH_TIME then { bb with countdown_autoqnh := QNH_TIME }
      else bb := by
  have hc : (!AutoQNH_gate bb || bb.countdown_autoqnh == 0) = true := by
    rcases h with h | h <;> simp [h]
  simp only [AutoQNH, AutoQNH_cond, hc, if_true]

/-- A call that passes the gate with a countdown above `QNH_TIME`. -/
theorem AutoQNH_disabled (L : Library) (bb : DeviceBlackboard)
    (h : QNH_TIME < bb.countdown_autoqnh) : AutoQNH L bb = bb := by
  have h10 : ¬ bb.countdown_autoqnh ≤ QNH_TIME := not_le.mpr h
  have h0 : bb.countdown_autoqnh ≠ 0 := by
    simp only [QNH_TIME] at h
    omega
  by_cases hg : AutoQNH_gate bb = false
  · rw [AutoQNH_restart L bb (Or.inl hg), if_neg h10]
  · have hc : (!AutoQNH_gate bb || bb.countdown_autoqnh == 0) = false := by
      simp [hg, h0]
    simp only [AutoQNH, AutoQNH_cond, hc, if_neg h10, Bool.false_eq_true, if_false]
    simp [h0]

theorem AutoQNH_reference_countdown (bb : DeviceBlackboard) (c : Nat) :
    AutoQNH_reference { bb with countdown_autoqnh := c } = AutoQNH_reference bb := rfl

/-- A call that passes the gate with a countdown from 2 to `QNH_TIME`. -/
theorem AutoQNH_countdown (L : Library) (bb : DeviceBlackboard)
    (hg : AutoQNH_gate bb = true) (h2 : 2 ≤ bb.countdown_autoqnh)
    (h10 : bb.countdown_autoqnh ≤ QNH_TIME) :
    AutoQNH L bb = { bb with countdown_autoqnh := bb.countdown_autoqnh - 1 } := by
  have h0 : bb.countdown_autoqnh ≠ 0 := by omega
  have hc : (!AutoQNH_gate bb || bb.countdown_autoqnh == 0) = false := by
    simp [hg, h0]
  have hdec : (bb.countdown_autoqnh + UINT_MAX) % (UINT_MAX + 1) = bb.countdown_autoqnh - 1 := by
    simp only [QNH_TIME] at h10
    simp only [UINT_MAX]
    omega
  have hne : ¬ (bb.countdown_autoqnh - 1 = 0) := by omega
  simp only [AutoQNH, AutoQNH_cond, hc, if_pos h10, Bool.false_eq_true, if_false, hdec,
    beq_iff_eq, hne]

/-- The call that passes the gate with the countdown at 1 and so uses it up. -/
theorem AutoQNH_complete (L : Library) (bb : DeviceBlackboard)
    (hg : AutoQNH_gate bb = true) (h1 : bb.countdown_autoqnh = 1) :
    AutoQNH L bb =
      match AutoQNH_reference bb with
      | some alt =>
          { bb with
            gps_info := bb.gps_info.ProvideQNHSetting
              (L.FindQNHFromPressureAltitude bb.gps_info.pressure
                bb.gps_info.PressureAltitude alt)
            devices_qnh := bb.devices_qnh ++
              [L.FindQNHFromPressureAltitude bb.gps_info.pressure
                bb.gps_info.PressureAltitude alt]
            countdown_autoqnh := UINT_MAX }
      | none => { bb with countdown_autoqnh := 0 } := by
  have hc : (!AutoQNH_gate bb || bb.countdown_autoqnh == 0) = false := by
    simp [hg, h1]
  have h10 : bb.countdown_autoqnh ≤ QNH_TIME := by
    rw [h1]
    decide
  have hdec : (bb.countdown_autoqnh + UINT_MAX) % (UINT_MAX + 1) = 0 := by
    rw [h1]
    decide
  simp only [AutoQNH, AutoQNH_cond, hc, if_pos h10, Bool.false_eq_true, if_false, hdec,
    beq_self_eq_true, if_true, AutoQNH_reference_countdown]
  cases AutoQNH_reference bb <;> rfl

/-- A call calibrates exactly when it passes the gate with the countdown at 1 and
an altitude reference is at hand. -/
theorem AutoQNH_calibrates_iff (L : Library) (bb : DeviceBlackboard) :
    AutoQNH_calibrates L bb = true ↔
      AutoQNH_gate bb = true ∧ bb.countdown_autoqnh = 1
        ∧ (AutoQNH_reference bb).isSome = true := by
  unfold AutoQNH_calibrates
  rw [decide_eq_true_iff]
  by_cases hg : AutoQNH_gate bb = true
  · by_cases h1 : bb.countdown_autoqnh = 1
    · rw [AutoQNH_complete L bb hg h1]
      cases hr : AutoQNH_reference bb with
      | none => simp
      | some alt => simp [hg, h1]
    · have hsame : (AutoQNH L bb).devices_qnh = bb.devices_qnh := by
        by_cases h0 : bb.countdown_autoqnh = 0
        · rw [AutoQNH_restart L bb (Or.inr h0)]
          split_ifs <;> rfl
        · by_cases h10 : bb.countdown_autoqnh ≤ QNH_TIME
          · rw [AutoQNH_countdown L bb hg (by omega) h10]
          · rw [AutoQNH_disabled L bb (not_le.mp h10)]
      simp [hsame, h1]
  · have hf : AutoQNH_gate bb = false := by simpa using hg
    have hsame : (AutoQNH L bb).devices_qnh = bb.devices_qnh := by
      rw [AutoQNH_restart L bb (Or.inl hf)]
      split_ifs <;> rfl
    simp [hsame, hf]

/-- The countdown after a calibrating call is the disabled value. -/
theorem AutoQNH_countdown_of_calibrates (L : Library) (bb : DeviceBlackboard)
    (h : AutoQNH_calibrates L bb = true) :
    (AutoQNH L bb).countdown_autoqnh = UINT_MAX := by
  obtain ⟨hg, h1, hr⟩ := (AutoQNH_calibrates_iff L bb).mp h
  rw [AutoQNH_complete L bb hg h1]
  cases hr' : AutoQNH_reference bb with
  | none => simp [hr'] at hr
  | some alt => rfl

/-- Without a calibration, a countdown within `0..QNH_TIME` stays there. -/
theorem AutoQNH_countdown_le (L : Library) (bb : DeviceBlackboard)
    (h10 : bb.countdown_autoqnh ≤ QNH_TIME) (hn : AutoQNH_calibrates L bb = false) :
    (AutoQNH L bb).countdown_autoqnh ≤ QNH_TIME := by
  by_cases hg : AutoQNH_gate bb = true
  · by_cases h0 : bb.countdown_autoqnh = 0
    · rw [AutoQNH_restart L bb (Or.inr h0), if_pos h10]
    · by_cases h1 : bb.countdown_autoqnh = 1
      · rw [AutoQNH_complete L bb hg h1]
        cases hr : AutoQNH_reference bb with
        | none => exact Nat.zero_le _
        | some alt =>
            have hc : AutoQNH_calibrates L bb = true :=
              (AutoQNH_calibrates_iff L bb).mpr ⟨hg, h1, by simp [hr]⟩
            rw [hn] at hc
            exact absurd hc (by decide)
      · rw [AutoQNH_countdown L bb hg (by omega) h10]
        show bb.countdown_autoqnh - 1 ≤ QNH_TIME
        omega
  · have hf : AutoQNH_gate bb = false := by simpa using hg
    rw [AutoQNH_restart L bb (Or.inl hf), if_pos h10]

theorem AutoQNH_run_append (L : Library) (c : Nat) (xs ys : List DeviceBlackboard) :
    AutoQNH_run L c (xs ++ ys) = AutoQNH_run L (AutoQNH_run L c xs) ys := by
  induction xs generalizing c with
  | nil => rfl
  | cons x xs ih => exact ih _

theorem AutoQNH_count_append (L : Library) (c : Nat) (xs ys : List DeviceBlackboard) :
    AutoQNH_count L c (xs ++ ys)
      = AutoQNH_count L c xs + AutoQNH_count L (AutoQNH_run L c xs) ys := by
  induction xs generalizing c with
  | nil => simp [AutoQNH_count, AutoQNH_run]
  | cons x xs ih =>
      show _ + AutoQNH_count L _ (xs ++ ys) = _ + AutoQNH_count L _ xs + _
      rw [ih]
      simp only [AutoQNH_run]
      omega

/-- Above `QNH_TIME` the countdown never moves and nothing is calibrated. -/
theorem AutoQNH_run_disabled (L : Library) (c : Nat) (envs : List DeviceBlackboard)
    (h : QNH_TIME < c) :
    AutoQNH_count L c envs = 0 ∧ AutoQNH_run L c envs = c := by
  induction envs with
  | nil => exact ⟨rfl, rfl⟩
  | cons env rest ih =>
      have hs : AutoQNH L (AutoQNH_entry c env) = AutoQNH_entry c env :=
        AutoQNH_disabled L _ h
      have hcal : AutoQNH_calibrates L (AutoQNH_entry c env) = false := by
        simp [AutoQNH_calibrates, hs]
      have hc : (AutoQNH_entry c env).countdown_autoqnh = c := rfl
      simp only [AutoQNH_count, AutoQNH_run, hs, hcal, hc, ih]
      simp

/-- From a countdown within `0..QNH_TIME`: either nothing has been calibrated
and the countdown is still in that range, or exactly one call has calibrated
and the countdown is the disabled value. -/
theorem AutoQNH_run_cases (L : Library) (c : Nat) (envs : List DeviceBlackboard)
    (h : c ≤ QNH_TIME) :
    (AutoQNH_count L c envs = 0 ∧ AutoQNH_run L c envs ≤ QNH_TIME)
    ∨ (AutoQNH_count L c envs = 1 ∧ AutoQNH_run L c envs = UINT_MAX) := by
  induction envs generalizing c with
  | nil => exact Or.inl ⟨rfl, h⟩
  | cons env rest ih =>
      cases hcal : AutoQNH_calibrates L (AutoQNH_entry c env) with
      | true =>
          have hmax := AutoQNH_countdown_of_calibrates L _ hcal
          have hd := AutoQNH_run_disabled L UINT_MAX rest (by decide)
          right
          simp only [AutoQNH_count, AutoQNH_run, hcal, hmax, hd.1, hd.2, if_true]
          simp
      | false =>
          have hle := AutoQNH_countdown_le L (AutoQNH_entry c env) h hcal
          rcases ih _ hle with h0 | h1
          · left
            simp only [AutoQNH_count, AutoQNH_run, hcal, h0.1]
            exact ⟨by simp, h0.2⟩
          · right
            simp only [AutoQNH_count, AutoQNH_run, hcal, h1.1]
            exact ⟨by simp, h1.2⟩

/-- While the countdown is within `0..QNH_TIME`, the calls since it was last at
`QNH_TIME` all passed the gate, and there are `QNH_TIME - countdown` of them. -/
theorem AutoQNH_run_streak (L : Library) (done : List DeviceBlackboard)
    (h : AutoQNH_run L QNH_TIME done ≤ QNH_TIME) :
    ∃ before streak, done = before ++ streak
      ∧ streak.length + AutoQNH_run L QNH_TIME done = QNH_TIME
      ∧ ∀ e ∈ streak, AutoQNH_gate e = true := by
  induction done using List.reverseRecOn with
  | nil => exact ⟨[], [], rfl, by simp [AutoQNH_run], by simp⟩
  | append_singleton done env ih =>
      have hrun : AutoQNH_run L QNH_TIME (done ++ [env])
          = (AutoQNH L (AutoQNH_entry (AutoQNH_run L QNH_TIME done) env)).countdown_autoqnh := by
        rw [AutoQNH_run_append]
        rfl
      rw [hrun] at h ⊢
      generalize hc : AutoQNH_run L QNH_TIME done = c at h ih ⊢
      have hcd : (AutoQNH_entry c env).countdown_autoqnh = c := rfl
      have hge : AutoQNH_gate (AutoQNH_entry c env) = AutoQNH_gate env := rfl
      by_cases hle : c ≤ QNH_TIME
      · obtain ⟨before, streak, hsplit, hlen, hall⟩ := ih hle
        by_cases hg : AutoQNH_gate env = true
        · by_cases h0 : c = 0
          · refine ⟨done ++ [env], [], by simp, ?_, by simp⟩
            rw [AutoQNH_restart L _ (Or.inr (hcd.trans h0)), if_pos (hcd.le.trans hle)]
            simp
          · have hstreak : ∀ e ∈ streak ++ [env], AutoQNH_gate e = true := by
              intro e he
              rcases List.mem_append.mp he with he | he
              · exact hall e he
              · rw [List.mem_singleton.mp he]
                exact hg
            by_cases h1 : c = 1
            · rw [AutoQNH_complete L _ (hge.trans hg) (hcd.trans h1)] at h ⊢
              cases hr : AutoQNH_reference (AutoQNH_entry c env) with
              | none =>
                  refine ⟨before, streak ++ [env], by simp [hsplit], ?_, hstreak⟩
                  simp only [List.length_append, List.length_singleton]
                  omega
              | some alt =>
                  rw [hr] at h
                  have hmax : UINT_MAX ≤ QNH_TIME := h
                  exact absurd hmax (by decide)
            · have h2 : 2 ≤ (AutoQNH_entry c env).countdown_autoqnh := by
                rw [hcd]
                omega
              rw [AutoQNH_countdown L _ (hge.trans hg) h2 (hcd.le.trans hle)]
              refine ⟨before, streak ++ [env], by simp [hsplit], ?_, hstreak⟩
              simp only [List.length_append, List.length_singleton, hcd]
              omega
        · have hf : AutoQNH_gate (AutoQNH_entry c env) = false := by
            rw [hge]
            simpa using hg
          refine ⟨done ++ [env], [], by simp, ?_, by simp⟩
          rw [AutoQNH_restart L _ (Or.inl hf), if_pos (hcd.le.trans hle)]
          simp
      · rw [AutoQNH_disabled L _ (not_le.mp hle)] at h
        exact absurd h hle

/-- C7. In a sequence of calls from the initial countdown: a call calibrates
only if it and the 9 calls before it all passed the gate, and a call made
before any calibration on which a gating condition fails leaves the countdown
at its full value. -/
theorem AutoQNH_debounce (L : Library) (done : List DeviceBlackboard)
    (env : DeviceBlackboard) :
    (AutoQNH_calibrates L (AutoQNH_entry (AutoQNH_run L QNH_TIME done) env) = true →
        ∃ before streak, done ++ [env] = before ++ streak
          ∧ streak.length = 10
          ∧ ∀ e ∈ streak, AutoQNH_gate e = true)
    ∧ (AutoQNH_count L QNH_TIME done = 0 → AutoQNH_gate env = false →
        (AutoQNH L (AutoQNH_entry (AutoQNH_run L QNH_TIME done) env)).countdown_autoqnh = 10
        ∧ AutoQNH_run L QNH_TIME (done ++ [env]) = 10) := by
  constructor
  · intro hcal
    obtain ⟨hg, h1, _⟩ := (AutoQNH_calibrates_iff L _).mp hcal
    have h1' : AutoQNH_run L QNH_TIME done = 1 := h1
    obtain ⟨before, streak, hsplit, hlen, hall⟩ :=
      AutoQNH_run_streak L done (by rw [h1']; decide)
    refine ⟨before, streak ++ [env], by simp [hsplit], ?_, ?_⟩
    · rw [h1'] at hlen
      simp only [QNH_TIME] at hlen
      simp only [List.length_append, List.length_singleton]
      omega
    · intro e he
      rcases List.mem_append.mp he with he | he
      · exact hall e he
      · rw [List.mem_singleton.mp he]
        exact hg
  · intro hcount hg
    have hle : AutoQNH_run L QNH_TIME done ≤ QNH_TIME := by
      rcases AutoQNH_run_cases L QNH_TIME done (le_refl _) with h0 | h1
      · exact h0.2
      · rw [h1.1] at hcount
        exact absurd hcount (by decide)
    have hstep : (AutoQNH L (AutoQNH_entry (AutoQNH_run L QNH_TIME done) env)).countdown_autoqnh
        = 10 := by
      have hg' : AutoQNH_gate (AutoQNH_entry (AutoQNH_run L QNH_TIME done) env) = false := hg
      have hle' : (AutoQNH_entry (AutoQNH_run L QNH_TIME done) env).countdown_autoqnh
          ≤ QNH_TIME := hle
      rw [AutoQNH_restart L _ (Or.inl hg'), if_pos hle']
      rfl
    refine ⟨hstep, ?_⟩
    rw [AutoQNH_run_append]
    exact hstep

/-- C8. `AutoQNH()` is one-shot: in every sequence of calls at most one
calibrates; from the call that calibrates on, the countdown is the disabled
value and no later call calibrates; and a call that finds the disabled value
changes nothing at all, so it neither sets QNH nor broadcasts. -/
theorem AutoQNH_one_shot (L : Library) (envs : List DeviceBlackboard) :
    AutoQNH_count L QNH_TIME envs ≤ 1
    ∧ (∀ done later, envs = done ++ later → 0 < AutoQNH_count L QNH_TIME done →
        AutoQNH_run L QNH_TIME done = UINT_MAX
        ∧ AutoQNH_count L (AutoQNH_run L QNH_TIME done) later = 0
        ∧ AutoQNH_run L QNH_TIME envs = UINT_MAX)
    ∧ (∀ bb, AutoQNH_calibrates L bb = true →
        (AutoQNH L bb).countdown_autoqnh = UINT_MAX)
    ∧ (∀ bb, bb.countdown_autoqnh = UINT_MAX → AutoQNH L bb = bb) := by
  refine ⟨?_, ?_, ?_, ?_⟩
  · rcases AutoQNH_run_cases L QNH_TIME envs (le_refl _) with h0 | h1
    · rw [h0.1]
      exact Nat.zero_le _
    · rw [h1.1]
  · intro done later hsplit hpos
    have hmax : AutoQNH_run L QNH_TIME done = UINT_MAX := by
      rcases AutoQNH_run_cases L QNH_TIME done (le_refl _) with h0 | h1
      · rw [h0.1] at hpos
        exact absurd hpos (by decide)
      · exact h1.2
    have hd := AutoQNH_run_disabled L UINT_MAX later (by decide)
    refine ⟨hmax, ?_, ?_⟩
    · rw [hmax]
      exact hd.1
    · rw [hsplit, AutoQNH_run_append, hmax]
      exact hd.2
  · intro bb hcal
    exact AutoQNH_countdown_of_calibrates L bb hcal
  · intro bb hmax
    exact AutoQNH_disabled L bb (by rw [hmax]; decide)

/-- From a countdown `n + 1` within `1..QNH_TIME`, `n + 1` calls that all pass
the gate with an altitude reference at hand calibrate exactly once. -/
theorem AutoQNH_count_qualifying (L : Library) (n : Nat) (envs : List DeviceBlackboard)
    (hlen : envs.length = n + 1) (hn : n + 1 ≤ QNH_TIME)
    (hall : ∀ e ∈ envs, AutoQNH_gate e = true ∧ (AutoQNH_reference e).isSome = true) :
    AutoQNH_count L (n + 1) envs = 1 := by
  induction n generalizing envs with
  | zero =>
      cases envs with
      | nil => simp at hlen
      | cons env rest =>
          have hnil : rest = [] := List.length_eq_zero.mp (by simpa using hlen)
          subst hnil
          have he := hall env (List.mem_singleton.mpr rfl)
          have hcal : AutoQNH_calibrates L (AutoQNH_entry (0 + 1) env) = true :=
            (AutoQNH_calibrates_iff L _).mpr ⟨he.1, rfl, he.2⟩
          simp only [AutoQNH_count, hcal, if_true]
  | succ n ih =>
      cases envs with
      | nil => simp at hlen
      | cons env rest =>
          have he := hall env (List.mem_cons_self _ _)
          have hnot : AutoQNH_calibrates L (AutoQNH_entry (n + 1 + 1) env) = false := by
            cases hcal : AutoQNH_calibrates L (AutoQNH_entry (n + 1 + 1) env) with
            | false => rfl
            | true =>
                have h1 : n + 1 + 1 = 1 := ((AutoQNH_calibrates_iff L _).mp hcal).2.1
                omega
          have hstep : (AutoQNH L (AutoQNH_entry (n + 1 + 1) env)).countdown_autoqnh = n + 1 := by
            have h2 : 2 ≤ (AutoQNH_entry (n + 1 + 1) env).countdown_autoqnh := by
              show 2 ≤ n + 1 + 1
              omega
            have hg : AutoQNH_gate (AutoQNH_entry (n + 1 + 1) env) = true := he.1
            rw [AutoQNH_countdown L (AutoQNH_entry (n + 1 + 1) env) hg h2 hn]
            rfl
          have hrest : AutoQNH_count L (n + 1) rest = 1 :=
            ih rest (by simpa using hlen) (by omega)
              (fun e h => hall e (List.mem_cons_of_mem _ h))
          simp only [AutoQNH_count, hnot, hstep, hrest]
          simp

/-- Ten calls in the state `qnh_state_terrain`, from the initial countdown:
the tenth one calibrates. -/
theorem AutoQNH_ten_qualifying_calls :
    AutoQNH_count Library.sample QNH_TIME (List.replicate 10 qnh_state_terrain) = 1 :=
  AutoQNH_count_qualifying Library.sample 9 _ rfl (by decide)
    (fun e he => by rw [List.eq_of_mem_replicate he]; exact ⟨rfl, rfl⟩)

/-- C9. On the call that completes the debounce (gate passed, countdown at 1):
with an airport found within 1000 m, QNH is calibrated against the altitude of
that airport, whatever the terrain; otherwise, with valid terrain, against the
terrain altitude; otherwise nothing is set or broadcast, the countdown is left
at 0, which is not the disabled value, and eleven further qualifying calls with
an altitude reference at hand calibrate. -/
theorem AutoQNH_reference_choice (L : Library) (bb : DeviceBlackboard)
    (hgate : AutoQNH_gate bb = true) (hlast : bb.countdown_autoqnh = 1) :
    (∀ wp, bb.way_points bb.gps_info.Location 1000 = some wp → wp.is_airport = true →
        AutoQNH L bb =
          { bb with
            gps_info := bb.gps_info.ProvideQNHSetting
              (L.FindQNHFromPressureAltitude bb.gps_info.pressure
                bb.gps_info.PressureAltitude wp.Altitude)
            devices_qnh := bb.devices_qnh ++
              [L.FindQNHFromPressureAltitude bb.gps_info.pressure
                bb.gps_info.PressureAltitude wp.Altitude]
            countdown_autoqnh := UINT_MAX })
    ∧ ((∀ wp, bb.way_points bb.gps_info.Location 1000 = some wp → wp.is_airport = false) →
        bb.calculated_info.TerrainValid = true →
        AutoQNH L bb =
          { bb with
            gps_info := bb.gps_info.ProvideQNHSetting
              (L.FindQNHFromPressureAltitude bb.gps_info.pressure
                bb.gps_info.PressureAltitude bb.calculated_info.TerrainAlt)
            devices_qnh := bb.devices_qnh ++
              [L.FindQNHFromPressureAltitude bb.gps_info.pressure
                bb.gps_info.PressureAltitude bb.calculated_info.TerrainAlt]
            countdown_autoqnh := UINT_MAX })
    ∧ ((∀ wp, bb.way_points bb.gps_info.Location 1000 = some wp → wp.is_airport = false) →
        bb.calculated_info.TerrainValid = false →
        AutoQNH L bb = { bb with countdown_autoqnh := 0 }
        ∧ (AutoQNH L bb).gps_info = bb.gps_info
        ∧ (AutoQNH L bb).devices_qnh = bb.devices_qnh
        ∧ (AutoQNH L bb).countdown_autoqnh ≠ UINT_MAX
        ∧ ∀ envs : List DeviceBlackboard, envs.length = 11 →
            (∀ e ∈ envs, AutoQNH_gate e = true ∧ (AutoQNH_reference e).isSome = true) →
            AutoQNH_count L (AutoQNH L bb).countdown_autoqnh envs = 1) := by
  have hstep := AutoQNH_complete L bb hgate hlast
  refine ⟨?_, ?_, ?_⟩
  · intro wp hwp hair
    have href : AutoQNH_reference bb = some wp.Altitude := by
      simp [AutoQNH_reference, hwp, hair]
    rw [hstep, href]
  · intro hno hterrain
    have href : AutoQNH_reference bb = some bb.calculated_info.TerrainAlt := by
      unfold AutoQNH_reference
      cases hwp : bb.way_points bb.gps_info.Location 1000 with
      | none => simp [hterrain]
      | some wp => simp [hno wp hwp, hterrain]
    rw [hstep, href]
  · intro hno hterrain
    have href : AutoQNH_reference bb = none := by
      unfold AutoQNH_reference
      cases hwp : bb.way_points bb.gps_info.Location 1000 with
      | none => simp [hterrain]
      | some wp => simp [hno wp hwp, hterrain]
    have hres : AutoQNH L bb = { bb with countdown_autoqnh := 0 } := by
      rw [hstep, href]
    refine ⟨hres, by rw [hres], by rw [hres], ?_, ?_⟩
    · rw [hres]
      show (0 : Nat) ≠ UINT_MAX
      decide
    · intro envs hlen hall
      rw [hres]
      cases envs with
      | nil => simp at hlen
      | cons env rest =>
          have he := hall env (List.mem_cons_self _ _)
          have hnot : AutoQNH_calibrates L (AutoQNH_entry 0 env) = false := by
            cases hcal : AutoQNH_calibrates L (AutoQNH_entry 0 env) with
            | false => rfl
            | true =>
                have h1 : (0 : Nat) = 1 := ((AutoQNH_calibrates_iff L _).mp hcal).2.1
                omega
          have hrestart : (AutoQNH L (AutoQNH_entry 0 env)).countdown_autoqnh = 9 + 1 := by
            rw [AutoQNH_restart L _ (Or.inr rfl)]
            rfl
          have hrest : AutoQNH_count L (9 + 1) rest = 1 :=
            AutoQNH_count_qualifying L 9 rest (by simpa using hlen) (by decide)
              (fun e h => hall e (List.mem_cons_of_mem _ h))
          show AutoQNH_count L 0 (env :: rest) = 1
          simp only [AutoQNH_count, hnot, hrestart, hrest]
          simp


/-- C9, at a state on the ground with no waypoint nearby and valid terrain. -/
theorem AutoQNH_reference_choice_witness :
    AutoQNH_gate qnh_state_terrain = true
    ∧ qnh_state_terrain.countdown_autoqnh = 1
    ∧ (AutoQNH Library.sample qnh_state_terrain).countdown_autoqnh = UINT_MAX
    ∧ (AutoQNH Library.sample qnh_state_terrain).devices_qnh
        = [Library.sample.FindQNHFromPressureAltitude ⟨0⟩ 100 120] := by
  have h := (AutoQNH_reference_choice Library.sample qnh_state_terrain rfl rfl).2.1
    (fun wp hwp => nomatch hwp) rfl
  exact ⟨rfl, rfl, by rw [h], by rw [h]; rfl⟩

/-! ## Theorems: energy height -/

/-- C10. After `EnergyHeight()` the energy height is exactly 0 when airspeed is
unavailable and `v * v / (2 * 9.81)` for the true airspeed `v` when it is
available; this holds for every `v`, so for every `v ≥ 0`. -/
theorem EnergyHeight_value (bb : DeviceBlackboard) :
    (EnergyHeight bb).gps_info.EnergyHeight =
      if bb.calculated_info.AirspeedAvailable = true then
        bb.calculated_info.TrueAirspeed * bb.calculated_info.TrueAirspeed
          / (2 * (981 / 100))
      else 0 := by
  cases h : bb.calculated_info.AirspeedAvailable
  · simp [EnergyHeight, h]
  · simp only [EnergyHeight, h, if_true, fixed_inv_2g]
    ring


/-! ## Theorems: vario -/

/-- What `Vario()` stores when time has elapsed. -/
theorem Vario_elapsed (bb : DeviceBlackboard)
    (hdT : 0 < bb.gps_info.Time - bb.state_last.Time) :
    (Vario bb).gps_info.GPSVario
        = (bb.gps_info.NavAltitude - bb.state_last.NavAltitude)
            / (bb.gps_info.Time - bb.state_last.Time)
    ∧ (Vario bb).gps_info.GPSVarioTE
        = (bb.gps_info.TEAltitude - bb.state_last.TEAltitude)
            / (bb.gps_info.Time - bb.state_last.Time)
    ∧ (Vario bb).gps_info.BruttoVario
        = if bb.gps_info.TotalEnergyVarioAvailable.valid then bb.gps_info.TotalEnergyVario
          else (bb.gps_info.NavAltitude - bb.state_last.NavAltitude)
            / (bb.gps_info.Time - bb.state_last.Time) := by
  have hp : positive (bb.gps_info.Time - bb.state_last.Time) := hdT
  simp only [Vario, dif_pos hp, fixed_div]
  exact ⟨trivial, trivial, trivial⟩

/-- C11, counterexample. No instrument vario, one second elapsed, navigation
altitude up by 10 and total-energy altitude up by 30: `Vario()` stores 10 as
the vario estimate, not the total-energy difference 30. -/
theorem Vario_brutto_counterexample :
    vario_state_energy.gps_info.TotalEnergyVarioAvailable.valid = false
    ∧ (vario_state_energy.gps_info.TEAltitude - vario_state_energy.state_last.TEAltitude)
        / (vario_state_energy.gps_info.Time - vario_state_energy.state_last.Time) = 30
    ∧ (Vario vario_state_energy).gps_info.BruttoVario = 10
    ∧ (Vario vario_state_energy).gps_info.BruttoVario
        ≠ (vario_state_energy.gps_info.TEAltitude - vario_state_energy.state_last.TEAltitude)
          / (vario_state_energy.gps_info.Time - vario_state_energy.state_last.Time) := by
  have hT : vario_state_energy.gps_info.Time - vario_state_energy.state_last.Time = 1 := by
    show (1 : ℚ) - 0 = 1
    norm_num
  have hTE : (vario_state_energy.gps_info.TEAltitude - vario_state_energy.state_last.TEAltitude)
      / (vario_state_energy.gps_info.Time - vario_state_energy.state_last.Time) = 30 := by
    show ((130 : ℚ) - 100) / (1 - 0) = 30
    norm_num
  have hB : (Vario vario_state_energy).gps_info.BruttoVario = 10 := by
    rw [(Vario_elapsed vario_state_energy (by rw [hT]; norm_num)).2.2]
    show (if false = true then (0 : ℚ) else ((110 : ℚ) - 100) / (1 - 0)) = 10
    norm_num
  refine ⟨rfl, hTE, hB, ?_⟩
  rw [hB, hTE]
  norm_num

/-- C11, amended. After `Vario()` the vario estimate is the instrument-supplied
total-energy vario when that is available, and otherwise the GPS vario: for a
positive elapsed time that is the difference of navigation altitude over the
elapsed time, for a non-positive one the GPS vario stored before. -/
theorem Vario_brutto (bb : DeviceBlackboard) :
    (bb.gps_info.TotalEnergyVarioAvailable.valid = true →
        (Vario bb).gps_info.BruttoVario = bb.gps_info.TotalEnergyVario)
    ∧ (bb.gps_info.TotalEnergyVarioAvailable.valid = false →
        (Vario bb).gps_info.BruttoVario = (Vario bb).gps_info.GPSVario)
    ∧ (0 < bb.gps_info.Time - bb.state_last.Time →
        (Vario bb).gps_info.GPSVario
          = (bb.gps_info.NavAltitude - bb.state_last.NavAltitude)
              / (bb.gps_info.Time - bb.state_last.Time))
    ∧ (bb.gps_info.Time - bb.state_last.Time ≤ 0 →
        (Vario bb).gps_info.GPSVario = bb.gps_info.GPSVario) := by
  refine ⟨?_, ?_, ?_, ?_⟩
  · intro h
    simp only [Vario]
    split_ifs <;> simp_all
  · intro h
    simp only [Vario]
    split_ifs <;> simp_all
  · intro h
    exact (Vario_elapsed bb h).1
  · intro h
    have hnp : ¬ positive (bb.gps_info.Time - bb.state_last.Time) := not_lt.mpr h
    simp only [Vario, dif_neg hnp]

theorem NavAltitude_value (bb : DeviceBlackboard) :
    (NavAltitude bb).gps_info.NavAltitude =
      if bb.settings_computer.EnableNavBaroAltitude = true
          ∧ bb.gps_info.BaroAltitudeAvailable.valid = true then
        bb.gps_info.BaroAltitude
      else bb.gps_info.GPSAltitude := by
  simp only [NavAltitude]
  cases bb.settings_computer.EnableNavBaroAltitude <;>
    cases bb.gps_info.BaroAltitudeAvailable.valid <;> simp

theorem NavAltitude_frame (bb : DeviceBlackboard) :
    (NavAltitude bb).state_last = bb.state_last
    ∧ (NavAltitude bb).gps_info.Time = bb.gps_info.Time
    ∧ (NavAltitude bb).gps_info.GPSAltitude = bb.gps_info.GPSAltitude := by
  simp only [NavAltitude]
  split_ifs <;> exact ⟨rfl, rfl, rfl⟩

/-- C12, counterexample. Barometric navigation altitude is enabled and
available; in one second the GPS altitude rises by 10 and the barometric
altitude by 30.  After `NavAltitude()` and `Vario()` the GPS vario is 30, not
the GPS-altitude difference 10. -/
theorem Vario_GPSVario_counterexample :
    0 < (NavAltitude vario_state_baro).gps_info.Time
        - (NavAltitude vario_state_baro).state_last.Time
    ∧ ((NavAltitude vario_state_baro).gps_info.GPSAltitude
          - (NavAltitude vario_state_baro).state_last.GPSAltitude)
        / ((NavAltitude vario_state_baro).gps_info.Time
          - (NavAltitude vario_state_baro).state_last.Time) = 10
    ∧ (Vario (NavAltitude vario_state_baro)).gps_info.GPSVario = 30
    ∧ (Vario (NavAltitude vario_state_baro)).gps_info.GPSVario
        ≠ ((NavAltitude vario_state_baro).gps_info.GPSAltitude
            - (NavAltitude vario_state_baro).state_last.GPSAltitude)
          / ((NavAltitude vario_state_baro).gps_info.Time
            - (NavAltitude vario_state_baro).state_last.Time) := by
  have hT : (NavAltitude vario_state_baro).gps_info.Time
      - (NavAltitude vario_state_baro).state_last.Time = 1 := by
    show (1 : ℚ) - 0 = 1
    norm_num
  have hG : ((NavAltitude vario_state_baro).gps_info.GPSAltitude
        - (NavAltitude vario_state_baro).state_last.GPSAltitude)
      / ((NavAltitude vario_state_baro).gps_info.Time
        - (NavAltitude vario_state_baro).state_last.Time) = 10 := by
    show ((110 : ℚ) - 100) / (1 - 0) = 10
    norm_num
  have hV : (Vario (NavAltitude vario_state_baro)).gps_info.GPSVario = 30 := by
    rw [(Vario_elapsed (NavAltitude vario_state_baro) (by rw [hT]; norm_num)).1]
    show ((230 : ℚ) - 200) / (1 - 0) = 30
    norm_num
  refine ⟨by rw [hT]; norm_num, hG, hV, ?_⟩
  rw [hV, hG]
  norm_num

/-- C12, amended. For a positive elapsed time, after `Vario()` the GPS vario is
the difference of navigation altitude over the elapsed time.  The navigation
altitude is what `NavAltitude()` selected, the barometric altitude when that is
enabled and available; the GPS vario is the difference of GPS altitude only
when both samples carry the GPS altitude as navigation altitude. -/
theorem Vario_GPSVario (bb : DeviceBlackboard)
    (hdT : 0 < bb.gps_info.Time - bb.state_last.Time) :
    (Vario bb).gps_info.GPSVario
        = (bb.gps_info.NavAltitude - bb.state_last.NavAltitude)
            / (bb.gps_info.Time - bb.state_last.Time)
    ∧ (Vario (NavAltitude bb)).gps_info.GPSVario
        = ((if bb.settings_computer.EnableNavBaroAltitude = true
                ∧ bb.gps_info.BaroAltitudeAvailable.valid = true then
              bb.gps_info.BaroAltitude
            else bb.gps_info.GPSAltitude) - bb.state_last.NavAltitude)
            / (bb.gps_info.Time - bb.state_last.Time)
    ∧ (bb.gps_info.NavAltitude = bb.gps_info.GPSAltitude →
        bb.state_last.NavAltitude = bb.state_last.GPSAltitude →
        (Vario bb).gps_info.GPSVario
          = (bb.gps_info.GPSAltitude - bb.state_last.GPSAltitude)
              / (bb.gps_info.Time - bb.state_last.Time)) := by
  have h1 := (Vario_elapsed bb hdT).1
  have hf := NavAltitude_frame bb
  have hdT' : 0 < (NavAltitude bb).gps_info.Time - (NavAltitude bb).state_last.Time := by
    rw [hf.1, hf.2.1]
    exact hdT
  refine ⟨h1, ?_, ?_⟩
  · rw [(Vario_elapsed (NavAltitude bb) hdT').1, NavAltitude_value, hf.1, hf.2.1]
  · intro hn hl
    rw [h1, hn, hl]

/-- C12, amended, at a state with barometric navigation altitude disabled. -/
theorem Vario_GPSVario_witness :
    (Vario (NavAltitude vario_state_gps)).gps_info.GPSVario = 10 := by
  have h := (Vario_GPSVario vario_state_gps (by show (0 : ℚ) < 1 - 0; norm_num)).2.1
  rw [h]
  show ((if false = true ∧ true = true then (230 : ℚ) else 110) - 100) / (1 - 0) = 10
  norm_num

/-! ## Theorems: the two-sample scenario -/

/-- C13, counterexample. The first sample of the scenario has time 0, the time
of the zero-initialised history sample, so the first sweep does not commit it;
the second sweep takes the altitude difference against the altitude 0 of the
untouched history sample and the GPS vario is 110, not 10. -/
theorem tick_scenario_counterexample :
    (tick Library.sample GlidePolar.sample
        (scenario_sample 0 100 scenario_initial)).state_last = NMEA_INFO.zero
    ∧ (scenario_run 0 1).gps_info.GPSVario = 110
    ∧ (scenario_run 0 1).gps_info.GPSVario ≠ 10 := by
  have h : (scenario_run 0 1).gps_info.GPSVario = 110 := by
    simp [scenario_run, scenario_sample, scenario_initial, ReadBlackboard, Initialise,
      device_blackboard, flying_info, NMEA_INFO.reset, DERIVED_INFO.reset,
      tick, DeviceBlackboard.zero, NMEA_INFO.zero, DERIVED_INFO.zero,
      SETTINGS_COMPUTER.zero, NMEA_INFO.expire, DERIVED_INFO.expire, Validity.expire,
      Validity.clear, Validity.update, FLARM_ScanTraffic, SetSystemTime, Wind, Heading,
      NavAltitude, AutoQNH, tick_fast, EnergyHeight, Vario, NettoVario, TurnRate, Dynamics,
      Validity.valid, Validity.modified, Library.sample, GlidePolar.sample,
      SpeedVector.is_non_zero, fixed_div, QNH_TIME, Angle.sub, Angle.native]
  refine ⟨?_, h, ?_⟩
  · simp [scenario_sample, scenario_initial, ReadBlackboard, Initialise,
      device_blackboard, flying_info, NMEA_INFO.reset, DERIVED_INFO.reset,
      tick, DeviceBlackboard.zero, NMEA_INFO.zero, DERIVED_INFO.zero,
      SETTINGS_COMPUTER.zero, NMEA_INFO.expire, DERIVED_INFO.expire, Validity.expire,
      Validity.clear, Validity.update, FLARM_ScanTraffic, SetSystemTime, Wind, Heading,
      NavAltitude, AutoQNH, tick_fast, EnergyHeight, Vario, NettoVario, TurnRate, Dynamics,
      Validity.valid, Validity.modified, Library.sample, GlidePolar.sample,
      SpeedVector.is_non_zero, fixed_div, QNH_TIME, Angle.sub, Angle.native]
  · rw [h]
    norm_num

/-- C13, amended. With the samples at the times 1 and 2 instead of 0 and 1, the
first sample differs in time from the zero-initialised history sample and is
committed, and the scenario leaves GPS vario 10 and the heading equal to the
track bearing. -/
theorem tick_scenario :
    (scenario_run 1 2).gps_info.GPSVario = 10
    ∧ (scenario_run 1 2).gps_info.Heading = (scenario_run 1 2).gps_info.TrackBearing
    ∧ (scenario_run 0 1).gps_info.Heading = (scenario_run 0 1).gps_info.TrackBearing := by
  refine ⟨?_, ?_, ?_⟩
  · simp [scenario_run, scenario_sample, scenario_initial, ReadBlackboard, Initialise,
      device_blackboard, flying_info, NMEA_INFO.reset, DERIVED_INFO.reset,
      tick, DeviceBlackboard.zero, NMEA_INFO.zero, DERIVED_INFO.zero,
      SETTINGS_COMPUTER.zero, NMEA_INFO.expire, DERIVED_INFO.expire, Validity.expire,
      Validity.clear, Validity.update, FLARM_ScanTraffic, SetSystemTime, Wind, Heading,
      NavAltitude, AutoQNH, tick_fast, EnergyHeight, Vario, NettoVario, TurnRate, Dynamics,
      Validity.valid, Validity.modified, Library.sample, GlidePolar.sample,
      SpeedVector.is_non_zero, fixed_div, QNH_TIME, Angle.sub, Angle.native]
    norm_num
  · simp [scenario_run, scenario_sample, scenario_initial, ReadBlackboard, Initialise,
      device_blackboard, flying_info, NMEA_INFO.reset, DERIVED_INFO.reset,
      tick, DeviceBlackboard.zero, NMEA_INFO.zero, DERIVED_INFO.zero,
      SETTINGS_COMPUTER.zero, NMEA_INFO.expire, DERIVED_INFO.expire, Validity.expire,
      Validity.clear, Validity.update, FLARM_ScanTraffic, SetSystemTime, Wind, Heading,
      NavAltitude, AutoQNH, tick_fast, EnergyHeight, Vario, NettoVario, TurnRate, Dynamics,
      Validity.valid, Validity.modified, Library.sample, GlidePolar.sample,
      SpeedVector.is_non_zero, fixed_div, QNH_TIME, Angle.sub, Angle.native]
  · simp [scenario_run, scenario_sample, scenario_initial, ReadBlackboard, Initialise,
      device_blackboard, flying_info, NMEA_INFO.reset, DERIVED_INFO.reset,
      tick, DeviceBlackboard.zero, NMEA_INFO.zero, DERIVED_INFO.zero,
      SETTINGS_COMPUTER.zero, NMEA_INFO.expire, DERIVED_INFO.expire, Validity.expire,
      Validity.clear, Validity.update, FLARM_ScanTraffic, SetSystemTime, Wind, Heading,
      NavAltitude, AutoQNH, tick_fast, EnergyHeight, Vario, NettoVario, TurnRate, Dynamics,
      Validity.valid, Validity.modified, Library.sample, GlidePolar.sample,
      SpeedVector.is_non_zero, fixed_div, QNH_TIME, Angle.sub, Angle.native]

/-! ## Theorems: netto vario, heading, navigation altitude -/

/-- What `NettoVario()` stores. -/
theorem NettoVario_eq (glide_polar : GlidePolar) (bb : DeviceBlackboard) :
    (NettoVario glide_polar bb).gps_info.NettoVario =
      if bb.gps_info.NettoVarioAvailable.valid = true then bb.gps_info.NettoVario
      else if bb.calculated_info.flight.Flying = true
          ∧ bb.calculated_info.AirspeedAvailable = true then
        bb.gps_info.BruttoVario
          + glide_polar.SinkRate bb.calculated_info.IndicatedAirspeed
              bb.gps_info.acceleration.Gload
      else bb.gps_info.BruttoVario := by
  simp only [NettoVario]
  cases bb.gps_info.NettoVarioAvailable.valid <;>
    cases bb.calculated_info.flight.Flying <;>
    cases bb.calculated_info.AirspeedAvailable <;> simp [sub_neg_eq_add]

/-- C14, counterexample. Flying with airspeed available, a vario estimate of 2,
a polar sink rate of 1 and an instrument-supplied netto vario of 7:
`NettoVario()` leaves the netto vario at 7, not at 2 + 1. -/
theorem NettoVario_counterexample :
    netto_state_instrument.calculated_info.flight.Flying = true
    ∧ netto_state_instrument.calculated_info.AirspeedAvailable = true
    ∧ netto_state_instrument.gps_info.BruttoVario
        + GlidePolar.sample.SinkRate netto_state_instrument.calculated_info.IndicatedAirspeed
            netto_state_instrument.gps_info.acceleration.Gload = 3
    ∧ (NettoVario GlidePolar.sample netto_state_instrument).gps_info.NettoVario = 7
    ∧ (NettoVario GlidePolar.sample netto_state_instrument).gps_info.NettoVario
        ≠ netto_state_instrument.gps_info.BruttoVario
          + GlidePolar.sample.SinkRate netto_state_instrument.calculated_info.IndicatedAirspeed
              netto_state_instrument.gps_info.acceleration.Gload := by
  have h3 : netto_state_instrument.gps_info.BruttoVario
      + GlidePolar.sample.SinkRate netto_state_instrument.calculated_info.IndicatedAirspeed
          netto_state_instrument.gps_info.acceleration.Gload = 3 := by
    show (2 : ℚ) + 1 = 3
    norm_num
  have h7 : (NettoVario GlidePolar.sample netto_state_instrument).gps_info.NettoVario = 7 := rfl
  refine ⟨rfl, rfl, h3, h7, ?_⟩
  rw [h7, h3]
  norm_num

/-- C14, amended. After `NettoVario()`: an instrument-supplied netto vario, when
available, is left as it is; otherwise, when the aircraft is flying with
airspeed available, the netto vario is the vario estimate plus the sink rate of
the glide polar at the indicated airspeed and G-load; otherwise it is the vario
estimate. -/
theorem NettoVario_value (glide_polar : GlidePolar) (bb : DeviceBlackboard) :
    (bb.gps_info.NettoVarioAvailable.valid = true →
        (NettoVario glide_polar bb).gps_info.NettoVario = bb.gps_info.NettoVario)
    ∧ (bb.gps_info.NettoVarioAvailable.valid = false →
        bb.calculated_info.flight.Flying = true →
        bb.calculated_info.AirspeedAvailable = true →
        (NettoVario glide_polar bb).gps_info.NettoVario
          = bb.gps_info.BruttoVario
            + glide_polar.SinkRate bb.calculated_info.IndicatedAirspeed
                bb.gps_info.acceleration.Gload)
    ∧ (bb.gps_info.NettoVarioAvailable.valid = false →
        (bb.calculated_info.flight.Flying = false
          ∨ bb.calculated_info.AirspeedAvailable = false) →
        (NettoVario glide_polar bb).gps_info.NettoVario = bb.gps_info.BruttoVario) := by
  refine ⟨?_, ?_, ?_⟩
  · intro h
    rw [NettoVario_eq, if_pos h]
  · intro h hf ha
    rw [NettoVario_eq, if_neg (by simp [h]), if_pos ⟨hf, ha⟩]
  · intro h hor
    rw [NettoVario_eq, if_neg (by simp [h]), if_neg]
    rintro ⟨hf, ha⟩
    rcases hor with h' | h'
    · rw [hf] at h'
      exact absurd h' (by decide)
    · rw [ha] at h'
      exact absurd h' (by decide)

/-- The model of `NettoVario()` run without an instrument-supplied netto vario:
vario estimate 2 plus sink rate 1. -/
theorem NettoVario_computed :
    (NettoVario GlidePolar.sample netto_state_computed).gps_info.NettoVario = 3 := by
  rw [NettoVario_eq]
  show (if false = true then (7 : ℚ) else if true = true ∧ true = true then 2 + 1 else 2) = 3
  norm_num

/-- C16. After `NavAltitude()` the navigation altitude is the barometric
altitude when the settings enable barometric navigation altitude and the
barometric altitude is available, and the GPS altitude in every other case. -/
theorem NavAltitude_selection (bb : DeviceBlackboard) :
    (NavAltitude bb).gps_info.NavAltitude =
      if bb.settings_computer.EnableNavBaroAltitude = true
          ∧ bb.gps_info.BaroAltitudeAvailable.valid = true then
        bb.gps_info.BaroAltitude
      else bb.gps_info.GPSAltitude := by
  simp only [NavAltitude]
  cases bb.settings_computer.EnableNavBaroAltitude <;>
    cases bb.gps_info.BaroAltitudeAvailable.valid <;> simp

/-- C15. After `Heading()` the heading is the track bearing when the aircraft is
not flying, or when the ground speed is not positive and the wind vector is
zero.  In every other case it is `as_bearing` of the angle `atan2(x, y)` whose
arguments are the sums of the sine and of the cosine components of the
ground-speed vector along the track bearing and of the wind vector; with
`as_bearing` normalising into `[0, 360)` degrees, the heading lies there. -/
theorem Heading_value (L : Library) (bb : DeviceBlackboard) :
    ((bb.calculated_info.flight.Flying = false
        ∨ (¬ 0 < bb.gps_info.GroundSpeed ∧ bb.gps_info.wind.norm = 0)) →
      (Heading L bb).gps_info.Heading = bb.gps_info.TrackBearing)
    ∧ (bb.calculated_info.flight.Flying = true →
        (0 < bb.gps_info.GroundSpeed ∨ bb.gps_info.wind.norm ≠ 0) →
        (Heading L bb).gps_info.Heading
            = L.as_bearing (L.Angle_radians (L.atan2
                (L.fastsine bb.gps_info.TrackBearing * bb.gps_info.GroundSpeed
                  + L.fastsine bb.gps_info.wind.bearing * bb.gps_info.wind.norm)
                (L.fastcosine bb.gps_info.TrackBearing * bb.gps_info.GroundSpeed
                  + L.fastcosine bb.gps_info.wind.bearing * bb.gps_info.wind.norm)))
        ∧ ((∀ a, 0 ≤ L.value_degrees (L.as_bearing a)
                ∧ L.value_degrees (L.as_bearing a) < 360) →
            0 ≤ L.value_degrees (Heading L bb).gps_info.Heading
            ∧ L.value_degrees (Heading L bb).gps_info.Heading < 360)) := by
  constructor
  · intro h
    have hc : ((decide (positive bb.gps_info.GroundSpeed) || bb.gps_info.wind.is_non_zero)
        && bb.calculated_info.flight.Flying) = false := by
      rcases h with hf | ⟨hg, hw⟩
      · simp [hf]
      · simp [SpeedVector.is_non_zero, hg, hw]
    simp only [Heading, hc, Bool.false_eq_true, if_false]
  · intro hf hmove
    have hc : ((decide (positive bb.gps_info.GroundSpeed) || bb.gps_info.wind.is_non_zero)
        && bb.calculated_info.flight.Flying) = true := by
      rcases hmove with hg | hw
      · simp [hf, hg]
      · simp [SpeedVector.is_non_zero, hf, hw]
    have heq : (Heading L bb).gps_info.Heading
        = L.as_bearing (L.Angle_radians (L.atan2
            (L.fastsine bb.gps_info.TrackBearing * bb.gps_info.GroundSpeed
              + L.fastsine bb.gps_info.wind.bearing * bb.gps_info.wind.norm)
            (L.fastcosine bb.gps_info.TrackBearing * bb.gps_info.GroundSpeed
              + L.fastcosine bb.gps_info.wind.bearing * bb.gps_info.wind.norm))) := by
      simp only [Heading, hc, if_true]
    refine ⟨heq, ?_⟩
    intro hb
    rw [heq]
    exact hb _

/-- The normalisation of `Library.normalising` keeps bearings in `[0, 360)`. -/
theorem Library.normalising_as_bearing (a : Angle) :
    0 ≤ Library.normalising.value_degrees (Library.normalising.as_bearing a)
    ∧ Library.normalising.value_degrees (Library.normalising.as_bearing a) < 360 := by
  show 0 ≤ a.value - ⌊a.value / 360⌋ * 360 ∧ a.value - ⌊a.value / 360⌋ * 360 < 360
  exact ⟨Int.sub_floor_div_mul_nonneg _ (by norm_num), Int.sub_floor_div_mul_lt _ (by norm_num)⟩

/-- The normalisation of `Library.normalising` keeps deltas in `[-180, 180)`. -/
theorem Library.normalising_as_delta (a : Angle) :
    -180 ≤ Library.normalising.value_degrees (Library.normalising.as_delta a)
    ∧ Library.normalising.value_degrees (Library.normalising.as_delta a) ≤ 180 := by
  show -180 ≤ a.value + 180 - ⌊(a.value + 180) / 360⌋ * 360 - 180
    ∧ a.value + 180 - ⌊(a.value + 180) / 360⌋ * 360 - 180 ≤ 180
  have h1 := Int.sub_floor_div_mul_nonneg (a.value + 180) (show (0 : ℚ) < 360 by norm_num)
  have h2 := Int.sub_floor_div_mul_lt (a.value + 180) (show (0 : ℚ) < 360 by norm_num)
  constructor <;> linarith

/-- C15, at a flying state with ground speed 20 under `Library.normalising`: the
heading lies in `[0, 360)`. -/
theorem Heading_value_witness :
    0 ≤ Library.normalising.value_degrees
        (Heading Library.normalising turn_state_moving).gps_info.Heading
    ∧ Library.normalising.value_degrees
        (Heading Library.normalising turn_state_moving).gps_info.Heading < 360 :=
  ((Heading_value Library.normalising turn_state_moving).2 rfl
    (Or.inl (by show (0 : ℚ) < 20; norm_num))).2 Library.normalising_as_bearing

/-! ## Theorems: turn rate and dynamics -/

/-- C19. After `TurnRate()` the turn rate is 0 when the aircraft is not flying;
when it is flying and the elapsed time is positive, the turn rate is the change
of track bearing since the history sample, passed through `as_delta`, over the
elapsed time; with `as_delta` normalising into -180..+180 degrees, turn rate
times elapsed time lies in that range. -/
theorem TurnRate_value (L : Library) (bb : DeviceBlackboard) :
    (bb.calculated_info.flight.Flying = false → (TurnRate L bb).gps_info.TurnRate = 0)
    ∧ (bb.calculated_info.flight.Flying = true →
        0 < bb.gps_info.Time - bb.state_last.Time →
        (TurnRate L bb).gps_info.TurnRate
            = L.value_degrees
                (L.as_delta (bb.gps_info.TrackBearing.sub bb.state_last.TrackBearing))
              / (bb.gps_info.Time - bb.state_last.Time)
        ∧ ((∀ a, -180 ≤ L.value_degrees (L.as_delta a)
                ∧ L.value_degrees (L.as_delta a) ≤ 180) →
            -180 ≤ (TurnRate L bb).gps_info.TurnRate * (bb.gps_info.Time - bb.state_last.Time)
            ∧ (TurnRate L bb).gps_info.TurnRate * (bb.gps_info.Time - bb.state_last.Time)
                ≤ 180)) := by
  constructor
  · intro hf
    simp [TurnRate, hf]
  · intro hf hdT
    have hp : ¬ ¬ positive (bb.gps_info.Time - bb.state_last.Time) := not_not.mpr hdT
    have heq : (TurnRate L bb).gps_info.TurnRate
        = L.value_degrees
            (L.as_delta (bb.gps_info.TrackBearing.sub bb.state_last.TrackBearing))
          / (bb.gps_info.Time - bb.state_last.Time) := by
      simp only [TurnRate, hf, Bool.not_true, Bool.false_eq_true, if_false, dif_neg hp,
        fixed_div]
    refine ⟨heq, ?_⟩
    intro hd
    rw [heq, div_mul_cancel₀ _ (ne_of_gt hdT)]
    exact hd _

/-- C19, at a flying state two seconds after the history sample, the track
having turned from 60 to 90 degrees: 15 degrees per second. -/
theorem TurnRate_value_witness :
    (TurnRate Library.normalising turn_state_moving).gps_info.TurnRate = 15 := by
  have h := ((TurnRate_value Library.normalising turn_state_moving).2 rfl
    (by show (0 : ℚ) < 5 - 3; norm_num)).1
  rw [h]
  show ((90 : ℚ) - 60 + 180 - ⌊((90 : ℚ) - 60 + 180) / 360⌋ * 360 - 180) / (5 - 3) = 15
  have hfl : ⌊((90 : ℚ) - 60 + 180) / 360⌋ = 0 := by
    rw [Int.floor_eq_iff]
    norm_num
  rw [hfl]
  norm_num

/-- The branch test of `Dynamics()`. -/
theorem Dynamics_moving_iff (bb : DeviceBlackboard) :
    (bb.calculated_info.flight.Flying
        && (decide (positive bb.gps_info.GroundSpeed) || bb.gps_info.wind.is_non_zero)) = true
      ↔ bb.calculated_info.flight.Flying = true
          ∧ (0 < bb.gps_info.GroundSpeed ∨ bb.gps_info.wind.norm ≠ 0) := by
  simp [SpeedVector.is_non_zero]

/-- The acceleration record of `Dynamics()` outside the balanced-turn branch. -/
theorem Dynamics_still (L : Library) (bb : DeviceBlackboard)
    (h : (bb.calculated_info.flight.Flying
        && (decide (positive bb.gps_info.GroundSpeed) || bb.gps_info.wind.is_non_zero)) = false) :
    (Dynamics L bb).gps_info.acceleration.BankAngle = Angle.native 0
    ∧ (Dynamics L bb).gps_info.acceleration.Gload
        = if bb.gps_info.acceleration.Available = true then bb.gps_info.acceleration.Gload
          else 1 := by
  simp only [Dynamics, h, Bool.false_eq_true, if_false]
  cases bb.gps_info.acceleration.Available <;> simp

/-- The turn rate of the heading after `Dynamics()` in the balanced-turn branch. -/
theorem Dynamics_turning_rate (L : Library) (bb : DeviceBlackboard)
    (h : (bb.calculated_info.flight.Flying
        && (decide (positive bb.gps_info.GroundSpeed) || bb.gps_info.wind.is_non_zero)) = true) :
    (Dynamics L bb).gps_info.TurnRateWind =
      if 0 < bb.gps_info.Time - bb.state_last.Time then
        L.value_degrees (L.as_delta (bb.gps_info.Heading.sub bb.state_last.Heading))
          / (bb.gps_info.Time - bb.state_last.Time)
      else bb.gps_info.TurnRateWind := by
  simp only [Dynamics, h, if_true, apply_ite NMEA_INFO.TurnRateWind,
    apply_dite NMEA_INFO.TurnRateWind, fixed_div, ite_self, dite_eq_ite]

/-- The acceleration record of `Dynamics()` in the balanced-turn branch without
airspeed. -/
theorem Dynamics_turning_no_airspeed (L : Library) (bb : DeviceBlackboard)
    (h : (bb.calculated_info.flight.Flying
        && (decide (positive bb.gps_info.GroundSpeed) || bb.gps_info.wind.is_non_zero)) = true)
    (ha : bb.calculated_info.AirspeedAvailable = false) :
    (Dynamics L bb).gps_info.acceleration.BankAngle = Angle.native 0
    ∧ (Dynamics L bb).gps_info.acceleration.Gload
        = if bb.gps_info.acceleration.Available = true then bb.gps_info.acceleration.Gload
          else 1 := by
  simp only [Dynamics, h, ha, if_true, Bool.false_eq_true, if_false, Bool.false_and]
  by_cases hd : positive (bb.gps_info.Time - bb.state_last.Time) <;>
    cases hav : bb.gps_info.acceleration.Available <;> simp [hd, hav]

/-- The acceleration record of `Dynamics()` in the balanced-turn branch with
airspeed. -/
theorem Dynamics_turning_airspeed (L : Library) (bb : DeviceBlackboard)
    (h : (bb.calculated_info.flight.Flying
        && (decide (positive bb.gps_info.GroundSpeed) || bb.gps_info.wind.is_non_zero)) = true)
    (ha : bb.calculated_info.AirspeedAvailable = true) :
    (Dynamics L bb).gps_info.acceleration.BankAngle
        = L.Angle_radians (L.atan (L.value_radians (L.Angle_degrees
            ((Dynamics L bb).gps_info.TurnRateWind * bb.calculated_info.TrueAirspeed
              * fixed_inv_g))))
    ∧ (Dynamics L bb).gps_info.acceleration.Gload
        = if bb.gps_info.acceleration.Available = true then bb.gps_info.acceleration.Gload
          else 1 / max fixed_small |L.cos (L.atan (L.value_radians (L.Angle_degrees
            ((Dynamics L bb).gps_info.TurnRateWind * bb.calculated_info.TrueAirspeed
              * fixed_inv_g))))| := by
  rw [Dynamics_turning_rate L bb h]
  simp only [Dynamics, h, ha, if_true, Bool.true_and]
  by_cases hd : positive (bb.gps_info.Time - bb.state_last.Time)
  · have hd' : 0 < bb.gps_info.Time - bb.state_last.Time := hd
    cases hav : bb.gps_info.acceleration.Available <;>
      cases htv : bb.gps_info.TotalEnergyVarioAvailable.valid <;>
      simp [hd, hd', hav, htv, fixed_div]
  · have hd' : ¬ 0 < bb.gps_info.Time - bb.state_last.Time := hd
    cases hav : bb.gps_info.acceleration.Available <;>
      cases htv : bb.gps_info.TotalEnergyVarioAvailable.valid <;>
      simp [hd, hd', hav, htv, fixed_div]

/-- The estimate `1 / max(fixed_small, |c|)` is at most 1000, and at least 1 for
a cosine `c` of absolute value at most 1. -/
theorem Gload_estimate_bounds (c : ℚ) :
    1 / max fixed_small |c| ≤ 1000 ∧ (|c| ≤ 1 → 1 ≤ 1 / max fixed_small |c|) := by
  have hs : (0 : ℚ) < fixed_small := by norm_num [fixed_small]
  have hm : 0 < max fixed_small |c| := lt_of_lt_of_le hs (le_max_left _ _)
  constructor
  · rw [div_le_iff₀ hm]
    have h1 : fixed_small ≤ max fixed_small |c| := le_max_left _ _
    have h2 : (1 : ℚ) = 1000 * fixed_small := by norm_num [fixed_small]
    nlinarith
  · intro hc
    rw [le_div_iff₀ hm, one_mul]
    exact max_le (by norm_num [fixed_small]) hc

/-- C20. `Dynamics()` keeps a G-load supplied by an accelerometer.  When none is
supplied: with the aircraft not flying, or neither moving nor wind-affected, or
without airspeed, it stores bank angle 0 and G-load exactly 1; otherwise it
stores the bank angle `atan(...)` and the G-load `1 / max(0.001, |cos(bank)|)`
of that same angle.  The stored G-load is at most 1000 and, the cosine being at
most 1 in absolute value, at least 1. -/
theorem Dynamics_Gload (L : Library) (bb : DeviceBlackboard) :
    (bb.gps_info.acceleration.Available = true →
        (Dynamics L bb).gps_info.acceleration.Gload = bb.gps_info.acceleration.Gload)
    ∧ (bb.gps_info.acceleration.Available = false →
        ((bb.calculated_info.flight.Flying = false
            ∨ (¬ 0 < bb.gps_info.GroundSpeed ∧ bb.gps_info.wind.norm = 0)
            ∨ bb.calculated_info.AirspeedAvailable = false) →
          (Dynamics L bb).gps_info.acceleration.BankAngle = Angle.native 0
          ∧ (Dynamics L bb).gps_info.acceleration.Gload = 1)
        ∧ (bb.calculated_info.flight.Flying = true →
            (0 < bb.gps_info.GroundSpeed ∨ bb.gps_info.wind.norm ≠ 0) →
            bb.calculated_info.AirspeedAvailable = true →
            (Dynamics L bb).gps_info.acceleration.BankAngle
                = L.Angle_radians (L.atan (L.value_radians (L.Angle_degrees
                    ((Dynamics L bb).gps_info.TurnRateWind * bb.calculated_info.TrueAirspeed
                      * fixed_inv_g))))
            ∧ (Dynamics L bb).gps_info.acceleration.Gload
                = 1 / max (1 / 1000) |L.cos (L.atan (L.value_radians (L.Angle_degrees
                    ((Dynamics L bb).gps_info.TurnRateWind * bb.calculated_info.TrueAirspeed
                      * fixed_inv_g))))|)
        ∧ (Dynamics L bb).gps_info.acceleration.Gload ≤ 1000
        ∧ ((∀ x, |L.cos x| ≤ 1) → 1 ≤ (Dynamics L bb).gps_info.acceleration.Gload)) := by
  have hsmall : fixed_small = 1 / 1000 := rfl
  by_cases hm : (bb.calculated_info.flight.Flying
      && (decide (positive bb.gps_info.GroundSpeed) || bb.gps_info.wind.is_non_zero)) = true
  · have hmove := (Dynamics_moving_iff bb).mp hm
    cases ha : bb.calculated_info.AirspeedAvailable with
    | false =>
        have hd := Dynamics_turning_no_airspeed L bb hm ha
        refine ⟨fun hav => by rw [hd.2, if_pos hav], fun hav => ?_⟩
        have hg : (Dynamics L bb).gps_info.acceleration.Gload = 1 := by
          rw [hd.2, if_neg (by simp [hav])]
        refine ⟨fun _ => ⟨hd.1, hg⟩, fun _ _ h => absurd h (by decide), ?_, ?_⟩
        · rw [hg]
          norm_num
        · intro _
          rw [hg]
    | true =>
        have hd := Dynamics_turning_airspeed L bb hm ha
        refine ⟨fun hav => by rw [hd.2, if_pos hav], fun hav => ?_⟩
        have hg := hd.2
        rw [if_neg (by simp [hav])] at hg
        refine ⟨?_, fun _ _ _ => ⟨hd.1, by rw [hg, hsmall]⟩, ?_, ?_⟩
        · rintro (hf | ⟨hgs, hw⟩ | hno)
          · rw [hmove.1] at hf
            exact absurd hf (by decide)
          · rcases hmove.2 with h1 | h1
            · exact absurd h1 hgs
            · exact absurd hw h1
          · exact absurd hno (by decide)
        · rw [hg]
          exact (Gload_estimate_bounds _).1
        · intro hcos
          rw [hg]
          exact (Gload_estimate_bounds _).2 (hcos _)
  · have hm' : (bb.calculated_info.flight.Flying
        && (decide (positive bb.gps_info.GroundSpeed) || bb.gps_info.wind.is_non_zero)) = false := by
      simpa using hm
    have hd := Dynamics_still L bb hm'
    refine ⟨fun hav => by rw [hd.2, if_pos hav], fun hav => ?_⟩
    have hg : (Dynamics L bb).gps_info.acceleration.Gload = 1 := by
      rw [hd.2, if_neg (by simp [hav])]
    refine ⟨fun _ => ⟨hd.1, hg⟩, ?_, ?_, ?_⟩
    · intro hf hmv _
      exact absurd ((Dynamics_moving_iff bb).mpr ⟨hf, hmv⟩) hm
    · rw [hg]
      norm_num
    · intro _
      rw [hg]

/-- C20, at a flying, moving state with airspeed and no accelerometer, under a
library whose cosine is 1/2: the stored G-load is 2, within 1 and 1000. -/
theorem Dynamics_Gload_witness :
    (Dynamics Library.normalising turn_state_moving).gps_info.acceleration.Gload = 2
    ∧ 1 ≤ (Dynamics Library.normalising turn_state_moving).gps_info.acceleration.Gload
    ∧ (Dynamics Library.normalising turn_state_moving).gps_info.acceleration.Gload ≤ 1000 := by
  have h := (Dynamics_Gload Library.normalising turn_state_moving).2 rfl
  have hg := (h.2.1 rfl (Or.inl (by show (0 : ℚ) < 20; norm_num)) rfl).2
  have hcos : ∀ x, |Library.normalising.cos x| ≤ 1 := by
    intro x
    show |(1 / 2 : ℚ)| ≤ 1
    rw [abs_of_pos (by norm_num)]
    norm_num
  refine ⟨?_, h.2.2.2 hcos, h.2.2.1⟩
  rw [hg]
  show 1 / max (1 / 1000 : ℚ) |(1 / 2 : ℚ)| = 2
  rw [abs_of_pos (by norm_num), max_eq_right (by norm_num)]
  norm_num

/-! ## Theorems: replay location -/

/-- C18. After `SetLocation(loc, speed, bearing, alt, baroalt, t)`, whatever
the state before: the fix is valid, the satellite count is 6, the replay flag is
set, location, ground speed, track bearing, GPS altitude and time are the given
values, and the availability of airspeed, total-energy vario, netto vario,
external wind and selected wind is cleared. -/
theorem SetLocation_result (clock_ms : ℚ) (loc : GeoPoint) (speed : ℚ) (bearing : Angle)
    (alt baroalt t : ℚ) (bb : DeviceBlackboard) :
    (SetLocation clock_ms loc speed bearing alt baroalt t bb).gps_info.gps.NAVWarning = false
    ∧ (SetLocation clock_ms loc speed bearing alt baroalt t bb).gps_info.gps.SatellitesUsed = 6
    ∧ (SetLocation clock_ms loc speed bearing alt baroalt t bb).gps_info.gps.Replay = true
    ∧ (SetLocation clock_ms loc speed bearing alt baroalt t bb).gps_info.Location = loc
    ∧ (SetLocation clock_ms loc speed bearing alt baroalt t bb).gps_info.GroundSpeed = speed
    ∧ (SetLocation clock_ms loc speed bearing alt baroalt t bb).gps_info.TrackBearing = bearing
    ∧ (SetLocation clock_ms loc speed bearing alt baroalt t bb).gps_info.GPSAltitude = alt
    ∧ (SetLocation clock_ms loc speed bearing alt baroalt t bb).gps_info.Time = t
    ∧ (SetLocation clock_ms loc speed bearing alt baroalt t bb).gps_info.AirspeedAvailable.valid
        = false
    ∧ (SetLocation clock_ms loc speed bearing alt baroalt t
        bb).gps_info.TotalEnergyVarioAvailable.valid = false
    ∧ (SetLocation clock_ms loc speed bearing alt baroalt t bb).gps_info.NettoVarioAvailable.valid
        = false
    ∧ (SetLocation clock_ms loc speed bearing alt baroalt t
        bb).gps_info.ExternalWindAvailable.valid = false
    ∧ (SetLocation clock_ms loc speed bearing alt baroalt t bb).gps_info.WindAvailable.valid
        = false := by
  refine ⟨rfl, rfl, rfl, rfl, rfl, rfl, rfl, rfl, rfl, rfl, rfl, rfl, rfl⟩

/-! ## Theorems: opening the link -/

/-- The failure of `Port1Initialize` when the port cannot be opened. -/
theorem Port1Initialize_absent (os : Port1System) (l : Port1Link)
    (h : os.CreateFile = none) :
    Port1Initialize os l = (false, { l with hPort1 := none }) := by
  simp [Port1Initialize, h]

/-- Whenever `Port1Initialize` returns FALSE, this call has started no reader and
the handle variable holds whatever `CreateFile` returned: the invalid handle
only if the port could not be opened. -/
theorem Port1Initialize_failed_handle (os : Port1System) (l : Port1Link)
    (h : (Port1Initialize os l).1 = false) :
    (Port1Initialize os l).2.reader_running = l.reader_running
    ∧ (Port1Initialize os l).2.hPort1 = os.CreateFile := by
  cases os with
  | mk cf scs sct ct rt =>
    cases cf <;> cases scs <;> cases sct <;> cases ct <;>
      simp_all [Port1Initialize, Port1SetRxTimeout, Port1StartRxThread, CloseHandle]

/-- C17. The port opens with handle 7 and `SetCommState` rejects the settings:
`Port1Initialize` returns FALSE with no reader running and the handle closed
for the operating system, and leaves the handle variable at 7 instead of
`INVALID_HANDLE_VALUE`, so that a later `Port1Write` passes its guard and hands
its byte to `WriteFile`.  The same holds when `CreateThread` fails.  Only when
the port cannot be opened is the handle variable invalid. -/
theorem Port1Initialize_failure_leaves_handle :
    (Port1Initialize system_settings_rejected link_closed).1 = false
    ∧ (Port1Initialize system_settings_rejected link_closed).2.reader_running = false
    ∧ (Port1Initialize system_settings_rejected link_closed).2.open_handles = []
    ∧ (Port1Initialize system_settings_rejected link_closed).2.hPort1 = some 7
    ∧ Port1Write ((Port1Initialize system_settings_rejected link_closed).2.port []) 65
        = { hPort1_valid := true, written := [65] }
    ∧ (Port1Initialize system_thread_refused link_closed).1 = false
    ∧ (Port1Initialize system_thread_refused link_closed).2.reader_running = false
    ∧ (Port1Initialize system_thread_refused link_closed).2.hPort1 = some 7
    ∧ (Port1Initialize system_port_absent link_closed).1 = false
    ∧ (Port1Initialize system_port_absent link_closed).2.hPort1 = none := by
  decide

/-! ## Theorems: profile map -/

theorem decimal_isdigit (n : Nat) : ∀ c ∈ decimal n, isdigit c = true := by
  intro c hc
  unfold decimal at hc
  split_ifs at hc with h0
  · rw [List.mem_singleton.mp hc]
    decide
  · obtain ⟨d, hd, rfl⟩ := List.mem_map.mp hc
    have hlt : d < 10 := Nat.digits_lt_base (by decide) (List.mem_reverse.mp hd)
    simp only [isdigit, Bool.and_eq_true, decide_eq_true_eq]
    omega

theorem decimal_ne_nil (n : Nat) : decimal n ≠ [] := by
  unfold decimal
  split_ifs with h0
  · simp
  · simpa using (Nat.digits_ne_nil_iff_ne_zero (b := 10)).mpr h0

theorem decimal_value (n : Nat) :
    (decimal n).foldl (fun acc c => acc * 10 + (c - 48)) 0 = n := by
  unfold decimal
  split_ifs with h0
  · simp [h0]
  · rw [List.foldl_map, List.foldl_reverse]
    have h : ∀ L : List Nat,
        List.foldr (fun d acc => acc * 10 + (d + 48 - 48)) 0 L = Nat.ofDigits 10 L := by
      intro L
      induction L with
      | nil => rfl
      | cons d L ih =>
          simp only [List.foldr_cons, ih, Nat.ofDigits_cons]
          omega
    rw [h, Nat.ofDigits_digits]

theorem isdigit_not_space {c : Nat} (h : isdigit c = true) :
    isspace c = false ∧ c ≠ 45 ∧ c ≠ 43 ∧ c ≠ 34 ∧ c ≠ 10 := by
  simp only [isdigit, Bool.and_eq_true, decide_eq_true_eq] at h
  refine ⟨?_, by omega, by omega, by omega, by omega⟩
  simp only [isspace, Bool.or_eq_false_iff, beq_eq_false_iff_ne, ne_eq, Bool.and_eq_false_iff,
    decide_eq_false_iff_not]
  omega

/-- The conversion `_tcstol` applied to a non-empty run of digits. -/
theorem tcstol_digits (ds : tstring) (hne : ds ≠ []) (hd : ∀ c ∈ ds, isdigit c = true)
    (hr : ds.foldl (fun acc c => acc * 10 + (c - 48)) 0 ≤ 2147483647) :
    tcstol ds = (((ds.foldl (fun acc c => acc * 10 + (c - 48)) 0 : Nat) : Int), ds.length) := by
  cases ds with
  | nil => exact absurd rfl hne
  | cons c rest =>
      have hc := isdigit_not_space (hd c (List.mem_cons_self _ _))
      have htw : List.takeWhile isdigit (c :: rest) = c :: rest :=
        List.takeWhile_eq_self_iff.mpr hd
      have hsp : List.takeWhile isspace (c :: rest) = [] := by
        rw [List.takeWhile_cons_of_neg (by simp [hc.1])]
      have hdr : List.dropWhile isspace (c :: rest) = c :: rest := by
        rw [List.dropWhile_cons_of_neg (by simp [hc.1])]
      have h45 : (some c == some 45) = false := by simp [hc.2.1]
      have h43 : (some c == some 43) = false := by simp [hc.2.2.1]
      simp only [tcstol, hsp, hdr, List.head?_cons, h45, h43, Bool.or_self, Bool.false_eq_true,
        if_false, htw, List.length_nil, zero_add, reduceCtorEq]
      have hr' : ((List.foldl (fun acc c => acc * 10 + (c - 48)) 0 (c :: rest) : Nat) : Int)
          ≤ 2147483647 := by exact_mod_cast hr
      have hr0 : (0 : Int)
          ≤ ((List.foldl (fun acc c => acc * 10 + (c - 48)) 0 (c :: rest) : Nat) : Int) :=
        Int.ofNat_nonneg _
      rw [if_neg (by omega), if_neg (by omega)]

/-- The conversion `_tcstol` applied to a minus sign and a non-empty run of
digits. -/
theorem tcstol_minus_digits (ds : tstring) (hne : ds ≠ []) (hd : ∀ c ∈ ds, isdigit c = true)
    (hr : ds.foldl (fun acc c => acc * 10 + (c - 48)) 0 ≤ 2147483648) :
    tcstol (45 :: ds)
      = (- ((ds.foldl (fun acc c => acc * 10 + (c - 48)) 0 : Nat) : Int), 1 + ds.length) := by
  have htw : List.takeWhile isdigit ds = ds := List.takeWhile_eq_self_iff.mpr hd
  have hsp : List.takeWhile isspace (45 :: ds) = [] := by
    rw [List.takeWhile_cons_of_neg (by decide)]
  have hdr : List.dropWhile isspace (45 :: ds) = 45 :: ds := by
    rw [List.dropWhile_cons_of_neg (by decide)]
  simp only [tcstol, hsp, hdr, List.head?_cons, beq_self_eq_true, Bool.true_or, if_true,
    List.tail_cons, htw, hne, if_false, List.length_nil, zero_add]
  have hr' : ((List.foldl (fun acc c => acc * 10 + (c - 48)) 0 ds : Nat) : Int)
      ≤ 2147483648 := by exact_mod_cast hr
  have hr0 : (0 : Int) ≤ ((List.foldl (fun acc c => acc * 10 + (c - 48)) 0 ds : Nat) : Int) :=
    Int.ofNat_nonneg _
  rw [if_neg (by omega), if_neg (by omega)]

/-- Reading back what `%d` printed for a `DWORD` gives the value modulo `2^32`,
and consumes at least one character. -/
theorem tcstol_printf_d (value : Nat) :
    0 < (tcstol (printf_d value)).2
    ∧ DWORD (tcstol (printf_d value)).1 = value % 4294967296 := by
  have hlt : value % 4294967296 < 4294967296 := Nat.mod_lt _ (by decide)
  unfold printf_d
  split_ifs with h
  · rw [tcstol_digits _ (decimal_ne_nil _) (decimal_isdigit _)
      (by rw [decimal_value]; omega), decimal_value]
    refine ⟨List.length_pos.mpr (decimal_ne_nil _), ?_⟩
    simp only [DWORD]
    omega
  · rw [tcstol_minus_digits _ (decimal_ne_nil _) (decimal_isdigit _)
      (by rw [decimal_value]; omega), decimal_value]
    refine ⟨by omega, ?_⟩
    simp only [DWORD]
    omega

/-- What `%d` prints starts with neither a quote nor a line feed, and contains no
line feed. -/
theorem printf_d_chars (value : Nat) :
    printf_d value ≠ [] ∧ (printf_d value).head? ≠ some 34 ∧ 10 ∉ printf_d value := by
  have hdec : ∀ n, (decimal n).head? ≠ some 34 ∧ 10 ∉ decimal n := by
    intro n
    constructor
    · intro hh
      have hm : 34 ∈ decimal n := List.mem_of_mem_head? hh
      exact (isdigit_not_space (decimal_isdigit n 34 hm)).2.2.2.1 rfl
    · intro hm
      exact (isdigit_not_space (decimal_isdigit n 10 hm)).2.2.2.2 rfl
  unfold printf_d
  split_ifs with h
  · exact ⟨decimal_ne_nil _, (hdec _).1, (hdec _).2⟩
  · refine ⟨by simp, by simp, ?_⟩
    intro hm
    rcases List.mem_cons.mp hm with h1 | h1
    · exact absurd h1 (by decide)
    · exact (hdec _).2 h1

/-- Reading a line that ends with a line feed. -/
theorem read_lines_line (text rest current : tstring) (h : 10 ∉ text) :
    read_lines (text ++ 10 :: rest) current
      = (current.reverse ++ text) :: read_lines rest [] := by
  induction text generalizing current with
  | nil => simp [read_lines]
  | cons c text ih =>
      have hc : c ≠ 10 := fun hc => h (hc ▸ List.mem_cons_self _ _)
      have ht : 10 ∉ text := fun hm => h (List.mem_cons_of_mem _ hm)
      rw [List.cons_append, read_lines, if_neg hc, ih _ ht]
      simp

/-- The reader returns the lines that `printfln` wrote. -/
theorem read_lines_written (lines : List tstring) (h : ∀ l ∈ lines, 10 ∉ l) :
    read_lines (lines.map (fun l => l ++ [10])).flatten [] = lines := by
  induction lines with
  | nil => rfl
  | cons l lines ih =>
      have hl : 10 ∉ l := h l (List.mem_cons_self _ _)
      have ih' := ih (fun x hx => h x (List.mem_cons_of_mem _ hx))
      simp only [List.map_cons, List.flatten_cons, List.append_assoc, List.singleton_append]
      rw [read_lines_line _ _ _ hl, ih']
      simp

theorem printfln_foldl {α : Type} (f : α → tstring) (xs : List α) (file : tstring) :
    xs.foldl (fun file x => printfln file (f x)) file
      = file ++ (xs.map (fun x => f x ++ [10])).flatten := by
  induction xs generalizing file with
  | nil => simp
  | cons x xs ih =>
      rw [List.foldl_cons, ih]
      simp [printfln]

/-- The text that `Export` writes: one line per number, then one line per
string. -/
theorem Export_text (szFile : tstring) (pm : ProfileMap) (hfile : szFile ≠ []) :
    pm.Export szFile false
      = some ((pm.map_num.map num_line ++ pm.map_str.map str_line).map
          (fun l => l ++ [10])).flatten := by
  have hstr : ∀ (file : tstring) (it_str : tstring × tstring),
      (if it_str.2 ≠ [] then printfln file (it_str.1 ++ [61, 34] ++ it_str.2 ++ [34])
        else printfln file (it_str.1 ++ [61, 34, 34]))
      = printfln file (str_line it_str) := by
    intro file it_str
    by_cases hv : it_str.2 = []
    · simp [hv, str_line]
    · simp [hv, str_line]
  simp only [ProfileMap.Export, hfile, if_false, Bool.false_eq_true, hstr]
  rw [printfln_foldl str_line]
  change some (List.foldl (fun file it_num => printfln file (num_line it_num)) [] pm.map_num
    ++ _) = _
  rw [printfln_foldl num_line]
  simp only [List.nil_append, List.map_append, List.flatten_append, List.map_map]
  rfl

theorem takeWhile_until (key rest : tstring) (c : Nat) (h : c ∉ key) :
    (key ++ c :: rest).takeWhile (fun x => x != c) = key
    ∧ (key ++ c :: rest).dropWhile (fun x => x != c) = c :: rest := by
  have hp : ∀ x ∈ key, (fun x => x != c) x = true := by
    intro x hx
    have hne : x ≠ c := fun hxc => h (hxc ▸ hx)
    simpa using hne
  constructor
  · rw [List.takeWhile_append_of_pos hp, List.takeWhile_cons_of_neg (by simp)]
    simp
  · rw [List.dropWhile_append_of_pos hp, List.dropWhile_cons_of_neg (by simp)]

/-- The line of a number, read by `Import`. -/
theorem Import_line_num (P : Option tstring) (pm : ProfileMap) (key : tstring) (value : Nat)
    (hk : profile_key_ok key) :
    Import_line P pm (num_line (key, value))
      = pm.Set_num (match P with
          | some pre => pre ++ key
          | none => key) (value % 4294967296) := by
  obtain ⟨hne, heq, _, _, hhash⟩ := hk
  have hline : num_line (key, value) = key ++ 61 :: printf_d value := by
    simp [num_line]
  have hsplit := takeWhile_until key (printf_d value) 61 heq
  have hhead : (key ++ 61 :: printf_d value).head? = key.head? := by
    cases key with
    | nil => exact absurd rfl hne
    | cons c rest => rfl
  have hfirst : ((key ++ 61 :: printf_d value = [])
      || ((key ++ 61 :: printf_d value).head? == some 35)) = false := by
    rw [hhead]
    cases key with
    | nil => exact absurd rfl hne
    | cons c rest =>
        have hc : c ≠ 35 := by
          intro hc
          exact hhash (by rw [hc]; rfl)
        simp [hc]
  have hpd := printf_d_chars value
  have hrd := tcstol_printf_d value
  rw [hline]
  unfold Import_line
  rw [if_neg (by rw [hfirst]; decide)]
  simp only [hsplit.1, hsplit.2, if_neg hne]
  cases hv : printf_d value with
  | nil => exact absurd hv hpd.1
  | cons c rest =>
      have hc : c ≠ 34 := by
        intro hc
        apply hpd.2.1
        rw [hv, hc]
        rfl
      rw [hv] at hrd
      split
      · rename_i heq34
        exact absurd (List.cons.inj heq34).1 hc
      · rw [if_pos hrd.1, hrd.2]

/-- The line of a string, read by `Import`. -/
theorem Import_line_str (P : Option tstring) (pm : ProfileMap) (key value : tstring)
    (hk : profile_key_ok key) (hv : profile_value_ok value) :
    Import_line P pm (str_line (key, value))
      = pm.Set_str (match P with
          | some pre => pre ++ key
          | none => key) value := by
  obtain ⟨hne, heq, _, _, hhash⟩ := hk
  have hline : str_line (key, value) = key ++ 61 :: 34 :: (value ++ [34]) := by
    simp [str_line]
  have hsplit := takeWhile_until key (34 :: (value ++ [34])) 61 heq
  have hquote := takeWhile_until value [] 34 hv.1
  have hfirst : ((key ++ 61 :: 34 :: (value ++ [34]) = [])
      || ((key ++ 61 :: 34 :: (value ++ [34])).head? == some 35)) = false := by
    cases key with
    | nil => exact absurd rfl hne
    | cons c rest =>
        have hc : c ≠ 35 := by
          intro hc
          exact hhash (by rw [hc]; rfl)
        simp [hc]
  rw [hline]
  unfold Import_line
  rw [if_neg (by rw [hfirst]; decide)]
  simp only [hsplit.1, hsplit.2, if_neg hne, hquote.1, hquote.2]
  simp

theorem map_assign_new {V : Type} (m : List (tstring × V)) (key : tstring) (value : V)
    (h : key ∉ m.map Prod.fst) : map_assign m key value = m ++ [(key, value)] := by
  induction m with
  | nil => rfl
  | cons e m ih =>
      have hne : e.1 ≠ key := fun he => h (by simp [he])
      have hrest : key ∉ m.map Prod.fst := fun hm => h (by simp [List.mem_map.mp hm])
      obtain ⟨k, v⟩ := e
      simp only [map_assign, if_neg hne, ih hrest, List.cons_append]

/-- Importing the lines of numbers adds them, in order, to `map_num`. -/
theorem Import_num_lines (entries : List (tstring × Nat)) (pm : ProfileMap)
    (hk : ∀ e ∈ entries, profile_key_ok e.1)
    (hnew : (pm.map_num.map Prod.fst ++ entries.map Prod.fst).Nodup) :
    (entries.map num_line).foldl (Import_line none) pm
      = { pm with map_num :=
            pm.map_num ++ entries.map (fun e => (e.1, e.2 % 4294967296)) } := by
  induction entries generalizing pm with
  | nil => simp
  | cons e entries ih =>
      obtain ⟨key, value⟩ := e
      have hfresh : key ∉ pm.map_num.map Prod.fst := by
        intro hm
        have hd := List.disjoint_of_nodup_append hnew
        exact hd hm (by simp)
      rw [List.map_cons, List.foldl_cons,
        Import_line_num none pm key value (hk _ (List.mem_cons_self _ _))]
      rw [ih _ (fun x hx => hk x (List.mem_cons_of_mem _ hx))]
      · simp [ProfileMap.Set_num, map_assign_new _ _ _ hfresh]
      · simp only [ProfileMap.Set_num, map_assign_new _ _ _ hfresh, List.map_append,
          List.map_cons, List.map_nil, List.append_assoc, List.singleton_append]
        simpa using hnew

/-- Importing the lines of strings adds them, in order, to `map_str`. -/
theorem Import_str_lines (entries : List (tstring × tstring)) (pm : ProfileMap)
    (hk : ∀ e ∈ entries, profile_key_ok e.1) (hv : ∀ e ∈ entries, profile_value_ok e.2)
    (hnew : (pm.map_str.map Prod.fst ++ entries.map Prod.fst).Nodup) :
    (entries.map str_line).foldl (Import_line none) pm
      = { pm with map_str := pm.map_str ++ entries } := by
  induction entries generalizing pm with
  | nil => simp
  | cons e entries ih =>
      obtain ⟨key, value⟩ := e
      have hfresh : key ∉ pm.map_str.map Prod.fst := by
        intro hm
        have hd := List.disjoint_of_nodup_append hnew
        exact hd hm (by simp)
      rw [List.map_cons, List.foldl_cons,
        Import_line_str none pm key value (hk _ (List.mem_cons_self _ _))
          (hv _ (List.mem_cons_self _ _))]
      rw [ih _ (fun x hx => hk x (List.mem_cons_of_mem _ hx))
        (fun x hx => hv x (List.mem_cons_of_mem _ hx))]
      · simp [ProfileMap.Set_str, map_assign_new _ _ _ hfresh]
      · simp only [ProfileMap.Set_str, map_assign_new _ _ _ hfresh, List.map_append,
          List.map_cons, List.map_nil, List.append_assoc, List.singleton_append]
        simpa using hnew

theorem num_line_no_feed (e : tstring × Nat) (hk : profile_key_ok e.1) : 10 ∉ num_line e := by
  have hp := (printf_d_chars e.2).2.2
  simp only [num_line, List.mem_append, List.mem_singleton, not_or]
  exact ⟨⟨hk.2.2.1, by decide⟩, hp⟩

theorem str_line_no_feed (e : tstring × tstring) (hk : profile_key_ok e.1)
    (hv : profile_value_ok e.2) : 10 ∉ str_line e := by
  simp only [str_line, List.mem_append, List.mem_singleton, not_or, List.mem_cons,
    List.mem_nil_iff, or_false]
  exact ⟨⟨⟨hk.2.2.1, by decide, by decide⟩, hv.2.1⟩, by decide⟩

theorem map_find_map {V W : Type} (f : V → W) (m : List (tstring × V)) (key : tstring) :
    map_find (m.map (fun e => (e.1, f e.2))) key = (map_find m key).map f := by
  induction m with
  | nil => rfl
  | cons e m ih =>
      obtain ⟨k, v⟩ := e
      simp only [List.map_cons, map_find, ih]
      split_ifs <;> rfl


/-- C21. Profile round trip: for a profile map whose keys are non-empty, contain
no `=` and no line break and do not start with `#`, and whose string values
contain no `"` and no line break, `Import` of the file written by `Export`, into
an empty map, gives back the numeric entries with their values modulo `2^32`
and the string entries, empty strings included.  The keys of a `std::map` are
distinct; the file has a name and opens. -/
theorem ProfileMap_round_trip (szFile : tstring) (pm : ProfileMap)
    (hfile : szFile ≠ [])
    (hnum : (pm.map_num.map Prod.fst).Nodup) (hstr : (pm.map_str.map Prod.fst).Nodup)
    (hknum : ∀ e ∈ pm.map_num, profile_key_ok e.1)
    (hkstr : ∀ e ∈ pm.map_str, profile_key_ok e.1)
    (hvstr : ∀ e ∈ pm.map_str, profile_value_ok e.2) :
    ProfileMap.Import none szFile (pm.Export szFile false) ProfileMap.empty
        = { map_num := pm.map_num.map (fun e => (e.1, e.2 % 4294967296))
            map_str := pm.map_str }
    ∧ (∀ key,
        (ProfileMap.Import none szFile (pm.Export szFile false) ProfileMap.empty).Get_num key
          = (pm.Get_num key).map (fun value => value % 4294967296))
    ∧ (∀ key dwSize,
        (ProfileMap.Import none szFile (pm.Export szFile false) ProfileMap.empty).Get_str
            key dwSize
          = pm.Get_str key dwSize) := by
  have hlines : ∀ l ∈ pm.map_num.map num_line ++ pm.map_str.map str_line, 10 ∉ l := by
    intro l hl
    rcases List.mem_append.mp hl with h | h
    · obtain ⟨e, he, rfl⟩ := List.mem_map.mp h
      exact num_line_no_feed e (hknum e he)
    · obtain ⟨e, he, rfl⟩ := List.mem_map.mp h
      exact str_line_no_feed e (hkstr e he) (hvstr e he)
  have hmain : ProfileMap.Import none szFile (pm.Export szFile false) ProfileMap.empty
      = { map_num := pm.map_num.map (fun e => (e.1, e.2 % 4294967296))
          map_str := pm.map_str } := by
    rw [Export_text szFile pm hfile]
    simp only [ProfileMap.Import, if_neg hfile]
    rw [read_lines_written _ hlines, List.foldl_append,
      Import_num_lines pm.map_num ProfileMap.empty hknum (by simpa [ProfileMap.empty] using hnum),
      Import_str_lines pm.map_str _ hkstr hvstr (by simpa [ProfileMap.empty] using hstr)]
    simp [ProfileMap.empty]
  refine ⟨hmain, ?_, ?_⟩
  · intro key
    rw [hmain]
    exact map_find_map (fun value => value % 4294967296) pm.map_num key
  · intro key dwSize
    rw [hmain]
    rfl

/-- C21, at a map with the numbers 1200 and `2^32 - 1`, a string that contains
`=` and an empty string. -/
theorem ProfileMap_round_trip_witness :
    ProfileMap.Import none (codes "a.prf") (profile_sample.Export (codes "a.prf") false)
        ProfileMap.empty = profile_sample :=
  (ProfileMap_round_trip (codes "a.prf") profile_sample (by decide) (by decide) (by decide)
    (by decide) (by decide) (by decide)).1.trans (by decide)

/-- In a build that defines `PROFILE_KEY_PREFIX`, `Import` stores a number under
the prefixed key, so that the entry written by `Export` comes back under
another name. -/
theorem Import_with_key_head (pre szFile key : tstring) (value : Nat)
    (hfile : szFile ≠ []) (hk : profile_key_ok key) :
    ProfileMap.Import (some pre) szFile
        (({ map_num := [(key, value)], map_str := [] } : ProfileMap).Export szFile false)
        ProfileMap.empty
      = { map_num := [(pre ++ key, value % 4294967296)], map_str := [] } := by
  rw [Export_text szFile _ hfile]
  simp only [ProfileMap.Import, if_neg hfile, List.map_cons, List.map_nil, List.append_nil]
  have hr : read_lines [num_line (key, value) ++ [10]].flatten [] = [num_line (key, value)] :=
    read_lines_written [num_line (key, value)] (by
      intro l hl
      rw [List.mem_singleton.mp hl]
      exact num_line_no_feed (key, value) hk)
  rw [hr, List.foldl_cons, List.foldl_nil, Import_line_num (some pre) _ key value hk]
  rfl

end XCSoar
